import Mathlib

/-!
# Verification of the pyForTraCC visualizer view-state controller

Shallow embedding of the browser-based time-series viewer
(`src/js/core.js`, `src/js/mapUtils.js`, `src/js/viewOptions.js`,
`src/js/script.js`, `src/js/chartModule.js`, and the state manager).

Modelling conventions:
* JS numbers are modelled as `ℚ` (for parsed floats, NaN is `Option.none`)
  and `Int` (for indices and epoch times).
* `null`/`undefined` are both collapsed to `Option.none`; the few places
  where the distinction could matter are noted at the definition site.
* GeoJSON property values are modelled as strings (the code only ever
  parses them with `parseFloat` or displays them verbatim).
* `localStorage` is an association list from keys to structured values;
  `JSON.stringify`/`JSON.parse` round-trips are modelled as identity on
  the structured value.
-/

namespace PyForTraCC

/-! ## JS numeric parsing (modelled subset of `parseFloat` / `parseInt`) -/

/-- Numeric value of a list of decimal digit characters. -/
def natOfDigits (l : List Char) : Nat :=
  l.foldl (fun a c => 10 * a + (c.toNat - 48)) 0

/-- Split a leading run of decimal digits off a character list. -/
def splitDigits : List Char → List Char × List Char
  | [] => ([], [])
  | c :: cs =>
    if c.isDigit then
      let p := splitDigits cs
      (c :: p.1, p.2)
    else ([], c :: cs)

/-- Modelled subset of JS `parseFloat`: optional sign, integer digits,
optional fraction; prefix-parsing; `none` models NaN (no digits at all).
Exponents, `Infinity` and leading whitespace are outside the modelled
subset (no value in this repository uses them). -/
def jsParseFloat (s : String) : Option ℚ :=
  let cs := s.toList
  let signed : Bool × List Char :=
    match cs with
    | '-' :: r => (true, r)
    | '+' :: r => (false, r)
    | r => (false, r)
  let ip := splitDigits signed.2
  let fp : List Char :=
    match ip.2 with
    | '.' :: r2 => (splitDigits r2).1
    | _ => []
  if ip.1.isEmpty ∧ fp.isEmpty then none
  else
    let mag : ℚ := (natOfDigits ip.1 : ℚ) + (natOfDigits fp : ℚ) / (10 ^ fp.length)
    some (if signed.1 then -mag else mag)

/-- Modelled subset of JS `parseInt` (radix 10): optional sign then a
leading run of decimal digits; `none` models NaN. -/
def jsParseInt (s : String) : Option Int :=
  let cs := s.toList
  let signed : Bool × List Char :=
    match cs with
    | '-' :: r => (true, r)
    | '+' :: r => (false, r)
    | r => (false, r)
  let ip := splitDigits signed.2
  if ip.1.isEmpty then none
  else
    let mag : Int := natOfDigits ip.1
    some (if signed.1 then -mag else mag)

/-- JS strict equality `===` on two parsed numbers, with NaN on either
side comparing unequal (NaN === NaN is false). -/
def eqNum (a b : Option ℚ) : Bool :=
  match a, b with
  | some x, some y => x = y
  | _, _ => false

/-- `parseFloat` applied to a possibly-undefined property value:
`parseFloat(undefined)` is NaN. -/
def jsParseFloatOpt (s : Option String) : Option ℚ :=
  match s with
  | none => none
  | some v => jsParseFloat v

/-! ## GeoJSON data model -/

/-- GeoJSON geometry, restricted to the shapes the code inspects.
A polygon's coordinates are a list of rings, each ring a list of
`[lng, lat]` pairs. -/
inductive Geometry where
  | polygon (rings : List (List (ℚ × ℚ)))
  | multiPolygon (polys : List (List (List (ℚ × ℚ))))
  | otherGeom
deriving DecidableEq

/-- One GeoJSON feature: an optional properties map (string-valued) and
an optional geometry. -/
structure Feature where
  props : Option (List (String × String))
  geom : Option Geometry
deriving DecidableEq

/-- Property lookup: `none` models both a null properties object and a
missing key (`undefined`). -/
def Feature.prop (f : Feature) (k : String) : Option String :=
  match f.props with
  | none => none
  | some l => l.lookup k

/-- `feature.properties.uid` (undefined when properties is null or the
key is absent). -/
def Feature.uid (f : Feature) : Option String :=
  f.prop "uid"

/-- core.js `passesThreshold`:
`feature.properties && feature.properties.threshold !== undefined ?
parseFloat(feature.properties.threshold) === parseFloat(state.currentThresholdFilter) : false`. -/
def passesThreshold (tf : String) (f : Feature) : Bool :=
  match f.props with
  | none => false
  | some _ =>
    match f.prop "threshold" with
    | none => false
    | some t => eqNum (jsParseFloat t) (jsParseFloat tf)

/-! ## Application state (core.js `state`, plus the UI elements the
controller reads and writes) -/

/-- Leaflet styles used by the code (CONFIG.STYLES). -/
inductive PolyStyle where
  | boundary
  | selected
  | trajectory
deriving DecidableEq

/-- A rendered Leaflet layer handle: the feature it was created from and
its current style. -/
structure RenderedLayer where
  feature : Feature
  style : PolyStyle
deriving DecidableEq

/-- One loaded boundary snapshot (an element of `state.geojsonLayers`,
as built by `loadBoundaryLayers`): file name, the parsed
FeatureCollection's features, and the lazily-cached trajectory data. -/
structure TimeStep where
  fileName : String
  features : List Feature
  trajectoryGeojson : Option (List Feature)
deriving DecidableEq

/-- `state.selection`. -/
structure Selection where
  feature : Option Feature
  layer : Option RenderedLayer
  uid : Option String
deriving DecidableEq

/-- A marker produced by `viewOptions.updateMarkers`: tooltip position
(`[lat, lng]`) and tooltip text. -/
structure Marker where
  pos : ℚ × ℚ
  label : String
deriving DecidableEq

/-- One entry of the evolution time series (`chartModule`): the instant
encoded by the file-name timestamp (in minutes, see `dateUtcMinutes`)
and the parsed value of each CHART.EVOLUTION_VARIABLES attribute
(`none` models NaN). The source stores the same data as one array per
variable plus a timestamps array; a list of per-instant records is the
same information. -/
structure DataPoint where
  dateKey : Int
  vals : List (String × Option ℚ)
deriving DecidableEq

/-- The cached per-uid evolution series (`state.dataCache[uid]`),
sorted chronologically. -/
structure TimeSeries where
  points : List DataPoint
deriving DecidableEq

/-- The global application state: `core.state` together with the pieces
of UI state the controller reads and writes (checkbox, slider,
timestamp label, map viewport) and the interval-timer bookkeeping of
the playback scheduler. `markers` is the marker layer group's content;
`chartVisible` is whether the chart container is displayed. -/
structure AppState where
  geojsonLayers : List TimeStep
  currentIndex : Int
  playing : Bool
  playInterval : Option Nat
  currentThresholdFilter : String
  currentBoundaryLayer : Option (List RenderedLayer)
  currentTrajectoryLayer : Option (List RenderedLayer)
  displayOptions : List (String × Bool)
  selection : Selection
  dataCache : List (String × TimeSeries)
  markers : List Marker
  chartVisible : Bool
  showTrajectoryChecked : Bool
  timestampText : Option (Option Int)
  timelineValue : Int
  activeTimers : List (Nat × Option ℚ)
  timerCtr : Nat
  mapLat : ℚ
  mapLng : ℚ
  mapZoom : ℚ
deriving DecidableEq

/-- CONFIG.DISPLAY_KEYS. -/
def DISPLAY_KEYS : List String :=
  ["uid", "status", "size", "min", "ang_", "expansion"]

/-- CONFIG.CHART.EVOLUTION_VARIABLES. -/
def EVOLUTION_VARIABLES : List String :=
  ["size", "min", "expansion", "inside_clusters"]

/-- CONFIG.DEFAULT_THRESHOLD. -/
def DEFAULT_THRESHOLD : String := "235.0"

/-- CONFIG.TIME_OFFSET (hours). -/
def TIME_OFFSET : Int := -3

/-- CONFIG.TIME_INCREMENT (minutes). -/
def TIME_INCREMENT : Int := 10

/-- Default map center latitude: mean of CONFIG.MAP.BOUNDS latitudes. -/
def defaultLat : ℚ := ((-35.01807360131674 : ℚ) + 4.986926398683252) / 2

/-- Default map center longitude: mean of CONFIG.MAP.BOUNDS longitudes. -/
def defaultLng : ℚ := ((-79.99568018181952 : ℚ) + (-30.000680181819533)) / 2

/-- CONFIG.MAP.DEFAULT_ZOOM. -/
def defaultZoom : ℚ := 4.4

/-- The state at the start of `initializeApp` once the catalog has
loaded: all `core.state` fields at their initializers, with the loaded
(already filename-sorted) time-steps installed. -/
def initialState (layers : List TimeStep) : AppState where
  geojsonLayers := layers
  currentIndex := 0
  playing := false
  playInterval := none
  currentThresholdFilter := DEFAULT_THRESHOLD
  currentBoundaryLayer := none
  currentTrajectoryLayer := none
  displayOptions := DISPLAY_KEYS.map (fun k => (k, false))
  selection := ⟨none, none, none⟩
  dataCache := []
  markers := []
  chartVisible := false
  showTrajectoryChecked := false
  timestampText := none
  timelineValue := 0
  activeTimers := []
  timerCtr := 0
  mapLat := defaultLat
  mapLng := defaultLng
  mapZoom := defaultZoom

/-- JS array indexing `geojsonLayers[i]` with a possibly negative or
out-of-range index (`undefined` is `none`). -/
def getAt (l : List TimeStep) (i : Int) : Option TimeStep :=
  if 0 ≤ i then l.get? i.toNat else none

/-! ## Timestamp extraction (core.js `utils.extractTimestampFromFileName`)

The source extracts `YYYYMMDD_HHMM` from the file name with a regex,
builds the instant `Date.UTC(y, m-1, d, h, min)` shifted by
`TIME_OFFSET` hours and `TIME_INCREMENT` minutes, and formats it for
display. Later (`chartModule`) the formatted string is re-parsed and
used only for ordering; the formatting/re-parsing round trip is
modelled by carrying the instant itself, in minutes since the Unix
epoch. -/

/-- Days from 1970-01-01 to the civil date `(y, m, d)` with
`m ∈ [1,12]` (days may be out of range and roll over), mirroring the
proleptic-Gregorian arithmetic of JS `Date.UTC`. Divisions follow the
reference C-style truncating form, whose operands are arranged
non-negative. -/
def daysFromCivil (y m d : Int) : Int :=
  let yAdj : Int := if m ≤ 2 then y - 1 else y
  let era : Int := (if 0 ≤ yAdj then yAdj else yAdj - 399).tdiv 400
  let yoe : Int := yAdj - era * 400
  let doy : Int := (153 * (m + (if 2 < m then -3 else 9)) + 2).tdiv 5 + d - 1
  let doe : Int := yoe * 365 + yoe.tdiv 4 - yoe.tdiv 100 + doy
  era * 146097 + doe - 719468

/-- `Date.UTC(y, m0, d, h, mi)` in minutes since the epoch, with the
0-based month `m0` (and the day, hour and minute) allowed out of range
and normalized by rollover as JS does. -/
def dateUtcMinutes (y m0 d h mi : Int) : Int :=
  let yAdj := y + m0.fdiv 12
  let mCiv := m0.emod 12 + 1
  (daysFromCivil yAdj mCiv 1 + (d - 1)) * 1440 + h * 60 + mi

/-- Match the regex `(\d{4})(\d{2})(\d{2})_(\d{2})(\d{2})` at the head
of a character list, returning the five captured groups as numbers. -/
def matchStampAt (cs : List Char) : Option (Nat × Nat × Nat × Nat × Nat) :=
  match cs with
  | a1 :: a2 :: a3 :: a4 :: b1 :: b2 :: c1 :: c2 :: '_' :: d1 :: d2 :: e1 :: e2 :: _ =>
    if a1.isDigit ∧ a2.isDigit ∧ a3.isDigit ∧ a4.isDigit ∧ b1.isDigit ∧ b2.isDigit ∧
        c1.isDigit ∧ c2.isDigit ∧ d1.isDigit ∧ d2.isDigit ∧ e1.isDigit ∧ e2.isDigit then
      some (natOfDigits [a1, a2, a3, a4], natOfDigits [b1, b2], natOfDigits [c1, c2],
        natOfDigits [d1, d2], natOfDigits [e1, e2])
    else none
  | _ => none

/-- First match of the timestamp pattern anywhere in the string
(regex search semantics). -/
def stampSearch : List Char → Option (Nat × Nat × Nat × Nat × Nat)
  | [] => none
  | c :: cs =>
    match matchStampAt (c :: cs) with
    | some r => some r
    | none => stampSearch cs

/-- core.js `utils.extractTimestampFromFileName`, modelled by the
instant (in minutes) that the returned display string denotes:
`Date.UTC(year, month-1, day, hour, minute)` shifted by the timezone
offset and the minute increment. `none` is the source's `null` (no
pattern in the file name). -/
def extractTimestampKey (fileName : String) : Option Int :=
  match stampSearch fileName.toList with
  | none => none
  | some (y, mo, d, h, mi) =>
    some (dateUtcMinutes (y : Int) ((mo : Int) - 1) (d : Int) (h : Int) (mi : Int)
      + TIME_OFFSET * 60 + TIME_INCREMENT)

/-! ## Centroid and marker derivation (core.js `utils.computeCentroid`,
viewOptions.js `updateMarkers`) -/

/-- core.js `utils.computeCentroid`. Returns `null` (`none` here)
unless the geometry is a plain `"Polygon"`; otherwise averages the
vertices of `coordinates[0]` and returns `[lat, lng]`. A polygon whose
`coordinates` array is empty makes `coords.forEach` throw in JS
(`coordinates[0]` is `undefined`); that is the `.error` case, which
aborts the caller's `try` block. -/
def centroidJs (f : Feature) : Except Unit (Option (ℚ × ℚ)) :=
  match f.geom with
  | some (Geometry.polygon rings) =>
    match rings with
    | [] => .error ()
    | ring :: _ =>
      .ok (some ((ring.map Prod.snd).sum / (ring.length : ℚ),
        (ring.map Prod.fst).sum / (ring.length : ℚ)))
  | _ => .ok none

/-- The tooltip text built by `updateMarkers` for one feature: for each
display key in order, if its toggle is on and the feature has the
property, append `"<key>: <value><br>"`. -/
def enabledLabel (opts : List (String × Bool)) (f : Feature) : String :=
  DISPLAY_KEYS.foldl (fun acc k =>
    if (opts.lookup k).getD false then
      match f.prop k with
      | some v => acc ++ k ++ ": " ++ v ++ "<br>"
      | none => acc
    else acc) ""

/-- The feature filter of `updateMarkers`: when a feature is selected,
only features with the selected feature's uid (and passing the
threshold); otherwise all features passing the threshold. -/
def markerKeep (sel : Option Feature) (tf : String) (f : Feature) : Bool :=
  match sel with
  | some selF => f.props.isSome ∧ f.uid = selF.uid ∧ passesThreshold tf f
  | none => passesThreshold tf f

/-- The marker-construction loop of `updateMarkers`: features with a
`null` centroid are skipped, an empty tooltip text produces no marker,
and a centroid-computation throw aborts the remaining iterations
(the surrounding `try`/`catch`), keeping the markers built so far. -/
def buildMarkers (opts : List (String × Bool)) : List Feature → List Marker
  | [] => []
  | f :: rest =>
    match centroidJs f with
    | .error _ => []
    | .ok none => buildMarkers opts rest
    | .ok (some c) =>
      let label := enabledLabel opts f
      if label = "" then buildMarkers opts rest
      else ⟨c, label⟩ :: buildMarkers opts rest

/-- viewOptions.js `updateMarkers`, as the marker list it leaves in the
marker group (it first clears the group; with no current layer it
leaves it empty). -/
def updateMarkersList (st : AppState) : List Marker :=
  match getAt st.geojsonLayers st.currentIndex with
  | none => []
  | some step =>
    buildMarkers st.displayOptions
      (step.features.filter (markerKeep st.selection.feature st.currentThresholdFilter))

/-! ## Evolution series collection (chartModule.js `collectTimeSeriesData`) -/

/-- Chronological order on data points (the source sorts with
`(a, b) => a.originalDate - b.originalDate`). -/
def dpLE (a b : DataPoint) : Prop := a.dateKey ≤ b.dateKey

instance : DecidableRel dpLE := fun a b => inferInstanceAs (Decidable (a.dateKey ≤ b.dateKey))

instance : IsTotal DataPoint dpLE := ⟨fun a b => Int.le_total a.dateKey b.dateKey⟩

instance : IsTrans DataPoint dpLE := ⟨fun _ _ _ => Int.le_trans⟩

/-- The data point built for one matching feature:
`parseFloat(feature.properties[variable] || 0)` for each evolution
variable (a missing or empty property falls back to `0`). -/
def mkDataPoint (key : Int) (f : Feature) : DataPoint where
  dateKey := key
  vals := EVOLUTION_VARIABLES.map fun v =>
    (v, match f.prop v with
        | none => some 0
        | some s => if s = "" then some 0 else jsParseFloat s)

/-- The per-layer scan of `collectTimeSeriesData`: for each loaded
layer, find the first feature whose `properties.uid` strictly equals
the requested uid; skip layers with no match or no extractable
file-name timestamp. -/
def rawSeriesPoints (uid : String) (layers : List TimeStep) : List DataPoint :=
  layers.filterMap fun step =>
    match step.features.find? (fun f => f.props.isSome ∧ f.uid = some uid) with
    | none => none
    | some f =>
      match extractTimestampKey step.fileName with
      | none => none
      | some key => some (mkDataPoint key f)

/-- chartModule.js `collectTimeSeriesData`: return the cached series
for `uid` if present; otherwise scan all layers, sort the points
chronologically (JS `Array.prototype.sort` is stable, as is insertion
sort), cache the result under `uid` and return it. -/
def collectTimeSeriesData (st : AppState) (uid : String) : TimeSeries × AppState :=
  match st.dataCache.lookup uid with
  | some d => (d, st)
  | none =>
    let d : TimeSeries := ⟨(rawSeriesPoints uid st.geojsonLayers).insertionSort dpLE⟩
    (d, { st with dataCache := (uid, d) :: st.dataCache })

/-- chartModule.js `updateChart` restricted to the state it mutates:
collect the series for the feature's uid (filling the cache), hide the
chart container when the series is empty, show it otherwise. Chart.js
rendering details are external. -/
def updateChartF (st : AppState) (f : Feature) : AppState :=
  match f.props with
  | none => st
  | some _ =>
    let uid := f.uid.getD "N/A"
    let p := collectTimeSeriesData st uid
    if p.1.points.isEmpty then { p.2 with chartVisible := false }
    else { p.2 with chartVisible := true }

/-! ## Boundary layer rendering (mapUtils.js `updateBoundaryLayer`) -/

/-- The `getFeatureStyle` closure: selected style iff a uid is selected
and the feature's uid strictly equals it. -/
def featureStyle (uid? : Option String) (f : Feature) : PolyStyle :=
  match uid? with
  | some u => if f.uid = some u then .selected else .boundary
  | none => .boundary

/-- mapUtils.js `updateBoundaryLayer`: remove the rendered boundary
layer from the map, null the selection's `feature`/`layer` (keeping
`uid`), and — when the current index has a layer — re-render its
features through the threshold filter with per-feature styles, then
remove the trajectory overlay. On the early return (no layer at the
current index) the stale `state.currentBoundaryLayer` reference is
kept, as in the source. -/
def updateBoundaryLayer (st : AppState) : AppState :=
  let st := { st with selection := { st.selection with feature := none, layer := none } }
  match getAt st.geojsonLayers st.currentIndex with
  | none => st
  | some step =>
    let rendered := (step.features.filter (passesThreshold st.currentThresholdFilter)).map
      fun f => RenderedLayer.mk f (featureStyle st.selection.uid f)
    { st with currentBoundaryLayer := some rendered, currentTrajectoryLayer := none }

/-! ## Trajectory overlay (mapUtils.js `createTrajectoryLayer`,
`loadTrajectoryForCurrentLayer`) -/

/-- The filter of `createTrajectoryLayer`: truthy `properties`, `uid`
and `threshold` (empty strings are falsy), threshold matching the
current filter, then restriction to the selected uid or to the uids of
the visible boundary polygons. -/
def trajectoryKeep (st : AppState) (f : Feature) : Bool :=
  match f.props with
  | none => false
  | some _ =>
    match f.prop "uid", f.prop "threshold" with
    | some u, some t =>
      if u = "" ∨ t = "" then false
      else if ¬ eqNum (jsParseFloat t) (jsParseFloat st.currentThresholdFilter) then false
      else
        match st.selection.uid with
        | some selUid => u = selUid
        | none =>
          match getAt st.geojsonLayers st.currentIndex with
          | none => false
          | some step =>
            step.features.any fun bf =>
              bf.props.isSome ∧ bf.uid = some u ∧ passesThreshold st.currentThresholdFilter bf
    | _, _ => false

/-- mapUtils.js `loadTrajectoryForCurrentLayer`, synchronous part: with
no current layer return; otherwise remove the existing trajectory
layer, and on a cache hit render the cached trajectory data through
`createTrajectoryLayer`. A cache miss starts an asynchronous fetch
whose completion is a separate event, so the synchronous call leaves
the overlay removed. -/
def loadTrajectoryForCurrentLayer (st : AppState) : AppState :=
  match getAt st.geojsonLayers st.currentIndex with
  | none => st
  | some step =>
    let st := { st with currentTrajectoryLayer := none }
    match step.trajectoryGeojson with
    | some geo =>
      let tl := (geo.filter (trajectoryKeep st)).map fun f => RenderedLayer.mk f .trajectory
      { st with currentTrajectoryLayer := some tl }
    | none => st

/-- mapUtils.js `updateTimestampInfo`: with a layer whose file name is
truthy, set the timestamp label to the extracted timestamp (`none`
inside: the "No timestamp data" message). -/
def updateTimestampInfoF (st : AppState) : AppState :=
  match getAt st.geojsonLayers st.currentIndex with
  | none => st
  | some step =>
    if step.fileName = "" then st
    else { st with timestampText := some (extractTimestampKey step.fileName) }

/-! ## Layer swapping and selection (mapUtils.js `showLayerAtIndex`,
`clearSelection`, the per-feature click handler, core.js
`selectPolygonByUid`) -/

/-- `layer.setStyle(s)` on the layer handle created for feature `f`,
as seen through the boundary layer group (layer handles are identified
by their feature). -/
def setStyleOn (bl : Option (List RenderedLayer)) (f : Feature) (s : PolyStyle) :
    Option (List RenderedLayer) :=
  bl.map (List.map fun l => if l.feature = f then { l with style := s } else l)

/-- The re-selection condition of the `eachLayer` scan in
`showLayerAtIndex`: the layer's feature exists, has properties, its uid
strictly equals the saved uid, and it passes the threshold filter. -/
def scanHit (uid tf : String) (l : RenderedLayer) : Bool :=
  l.feature.props.isSome ∧ l.feature.uid = some uid ∧ passesThreshold tf l.feature

/-- One iteration of the `eachLayer` scan: on a hit, point the
selection at this layer, apply the selected style, and update the
evolution chart. -/
def scanStep (uid tf : String) (acc : AppState × Bool) (l : RenderedLayer) :
    AppState × Bool :=
  if scanHit uid tf l then
    let st := acc.1
    let sel := { st.selection with
      feature := some l.feature, layer := some { l with style := PolyStyle.selected } }
    let st := { st with
      selection := sel,
      currentBoundaryLayer := setStyleOn st.currentBoundaryLayer l.feature .selected }
    (updateChartF st l.feature, true)
  else acc

/-- The "try to select the saved uid again in the new layer" block of
`showLayerAtIndex`. Reading `eachLayer` off a null
`state.currentBoundaryLayer` is the TypeError case. When the scan finds
nothing, `feature`/`layer` stay null and the chart is hidden (the uid
is kept for when the entity reappears). -/
def restoreSelection (uid : String) (st : AppState) : Except String AppState :=
  match st.currentBoundaryLayer with
  | none => .error "TypeError: cannot read properties of null (reading eachLayer)"
  | some ls =>
    let r := ls.foldl (scanStep uid st.currentThresholdFilter) (st, false)
    if r.2 then .ok r.1
    else
      let sel := { r.1.selection with feature := none, layer := none }
      .ok { r.1 with selection := sel, chartVisible := false }

/-- The tail of `showLayerAtIndex` after the selection is restored:
recompute markers, update the timestamp label, reload the trajectory
overlay when its checkbox was checked, and sync the timeline slider
(with its progress bar) to the current index. -/
def showTail (showTrajectory : Bool) (st : AppState) : AppState :=
  let st := { st with markers := updateMarkersList st }
  let st := updateTimestampInfoF st
  let st := if showTrajectory then loadTrajectoryForCurrentLayer st else st
  { st with timelineValue := st.currentIndex }

/-- mapUtils.js `showLayerAtIndex` (the spec's `showTimeStepAt`):
no-op for an out-of-range index; otherwise save the selected uid,
remove the boundary layer and markers, set the index, re-render
through the filter, re-apply the selection by uid, and finish with
`showTail`. -/
def showLayerAtIndex (st : AppState) (index : Int) : Except String AppState :=
  if index < 0 ∨ (st.geojsonLayers.length : Int) ≤ index then .ok st
  else
    let currentSelectedUid := st.selection.uid
    let showTrajectory := st.showTrajectoryChecked
    let st := { st with currentBoundaryLayer := none, markers := [] }
    let st := { st with currentIndex := index }
    let st := updateBoundaryLayer st
    let afterSel : Except String AppState :=
      match currentSelectedUid with
      | none => .ok st
      | some uid =>
        restoreSelection uid { st with selection := { st.selection with uid := some uid } }
    afterSel.map (showTail showTrajectory)

/-- mapUtils.js `clearSelection` (map-background click): when a uid is
selected, `resetStyle` every rendered layer (Leaflet re-evaluates the
original style function, with the uid still set at that moment), clear
the whole selection, hide the chart, and recompute markers. -/
def clearSelection (st : AppState) : AppState :=
  match st.selection.uid with
  | none => st
  | some _ =>
    let bl := st.currentBoundaryLayer.map
      (List.map fun l => { l with style := featureStyle st.selection.uid l.feature })
    let st := { st with
      currentBoundaryLayer := bl,
      selection := ⟨none, none, none⟩, chartVisible := false }
    { st with markers := updateMarkersList st }

/-- Replace the value of one display-options key (checkbox state is
mirrored alongside and not modelled separately). -/
def setOption (opts : List (String × Bool)) (k : String) (v : Bool) :
    List (String × Bool) :=
  opts.map fun p => if p.1 = k then (k, v) else p

/-- The per-feature click handler installed by `updateBoundaryLayer`
(`onEachFeature`), for a rendered feature `f` of the current boundary
layer. Clicking the selected entity deselects it fully; otherwise any
previous highlight is reset, `f` becomes the selection, the chart is
updated, the `uid` display toggle is auto-enabled when no toggle is
active, and markers are recomputed. The guard compares
`selection.uid === feature.properties.uid`; with both sides absent the
model takes the branch for equal values (in JS `null === undefined` is
false, but every feature of the modelled data format carries a uid). -/
def clickFeature (st : AppState) (f : Feature) : AppState :=
  if st.selection.uid = f.uid then
    let st := { st with
      selection := ⟨none, none, none⟩,
      currentBoundaryLayer := setStyleOn st.currentBoundaryLayer f .boundary,
      chartVisible := false }
    { st with markers := updateMarkersList st }
  else
    let st :=
      if st.selection.uid.isSome then
        { st with currentBoundaryLayer :=
          st.currentBoundaryLayer.map (List.map fun l => { l with style := PolyStyle.boundary }) }
      else st
    let st := { st with
      selection := ⟨some f, some ⟨f, PolyStyle.selected⟩, f.uid⟩,
      currentBoundaryLayer := setStyleOn st.currentBoundaryLayer f .selected }
    let st := updateChartF st f
    let st :=
      if st.displayOptions.any (fun p => p.2) then st
      else if "uid" ∈ DISPLAY_KEYS then
        { st with displayOptions := setOption st.displayOptions "uid" true }
      else st
    { st with markers := updateMarkersList st }

/-- core.js `selectPolygonByUid`: scan the rendered layers for the uid
(threshold-filtered); the last hit becomes the selection and every hit
is styled selected; `selection.uid` is set only when found, while a
miss clears `feature`/`layer` and keeps the uid. -/
def selectPolygonByUid (st : AppState) (uid : String) : AppState :=
  match st.currentBoundaryLayer with
  | none => { st with selection := { st.selection with feature := none, layer := none } }
  | some ls =>
    let matched := ls.filter (scanHit uid st.currentThresholdFilter)
    match matched.getLast? with
    | some lastL =>
      let bl := ls.map fun l =>
        if scanHit uid st.currentThresholdFilter l then { l with style := PolyStyle.selected } else l
      { st with
        currentBoundaryLayer := some bl,
        selection := ⟨some lastL.feature, some { lastL with style := PolyStyle.selected }, some uid⟩ }
    | none => { st with selection := { st.selection with feature := none, layer := none } }

/-! ## Playback scheduler (script.js `updatePlayInterval`,
`togglePlayPause`, and the interval callback) -/

/-- JS `setInterval`: allocate a fresh (positive) handle and register
the timer; the period is `speed * 1000` ms (`none` models NaN from an
unparseable speed input). -/
def setIntervalF (st : AppState) (periodMs : Option ℚ) : AppState :=
  let h := st.timerCtr + 1
  { st with
    timerCtr := h, activeTimers := st.activeTimers ++ [(h, periodMs)],
    playInterval := some h }

/-- JS `clearInterval` on a possibly-null handle (clearing an inactive
handle is a harmless no-op). -/
def clearIntervalF (st : AppState) (h? : Option Nat) : AppState :=
  match h? with
  | none => st
  | some h => { st with activeTimers := st.activeTimers.filter fun p => p.1 ≠ h }

/-- script.js `updatePlayInterval`: clear any existing interval, and
while playing create a new one from the current speed input. -/
def updatePlayInterval (st : AppState) (speedVal : String) : AppState :=
  let st := if st.playInterval.isSome then clearIntervalF st st.playInterval else st
  if st.playing then setIntervalF st ((jsParseFloat speedVal).map (· * 1000))
  else st

/-- script.js `togglePlayPause`: flip `playing`; when starting, build
the interval; when stopping, clear it (the stale handle reference is
kept, as in the source). -/
def togglePlayPause (st : AppState) (speedVal : String) : AppState :=
  if st.geojsonLayers.isEmpty then st
  else
    let st := { st with playing := !st.playing }
    if st.playing then updatePlayInterval st speedVal
    else clearIntervalF st st.playInterval

/-- One tick of the playback interval callback: advance to
`currentIndex + 1`, wrapping to `0` past the end, show that layer, and
keep the trajectory overlay loaded if its checkbox is checked. -/
def playbackTick (st : AppState) : Except String AppState :=
  let shouldShowTrajectory := st.showTrajectoryChecked
  let next : Int :=
    if (st.geojsonLayers.length : Int) ≤ st.currentIndex + 1 then 0 else st.currentIndex + 1
  (showLayerAtIndex st next).map fun st =>
    if shouldShowTrajectory then loadTrajectoryForCurrentLayer st else st

/-- viewOptions.js `updateThresholdFilter`, after the checked radio's
value `v` is read: set the filter, re-render the boundary layer,
recompute markers, and reload the trajectory overlay if enabled. -/
def updateThresholdFilterF (st : AppState) (v : String) : AppState :=
  let st := { st with currentThresholdFilter := v }
  let st := updateBoundaryLayer st
  let st := { st with markers := updateMarkersList st }
  if st.showTrajectoryChecked then loadTrajectoryForCurrentLayer st else st

/-! ## Persistence (stateManager.js, core.js map-view persistence,
script.js `restoreUIState`)

`localStorage` holds strings; structured values go through
`JSON.stringify`/`JSON.parse` and stringified numbers through
`toString`/`parseInt`. Those round trips are modelled by storing the
structured value itself (`JVal`), keeping serialization external. -/

/-- A persisted value: a plain string, a stringified number, a
stringified viewport object, or a stringified display-options map. -/
inductive JVal where
  | s (v : String)
  | num (n : Int)
  | viewport (lat lng zoom : ℚ)
  | opts (m : List (String × Bool))
deriving DecidableEq

/-- JS truthiness of a stored string (only the empty string is falsy;
stringified numbers and JSON objects are never empty). -/
def JVal.truthy : JVal → Bool
  | .s v => v ≠ ""
  | _ => true

/-- The browser's local key-value store. -/
def Store := List (String × JVal)

instance : DecidableEq Store := inferInstanceAs (DecidableEq (List (String × JVal)))

/-- `localStorage.getItem` (null is `none`). -/
def Store.getItem (store : Store) (k : String) : Option JVal :=
  List.lookup k store

/-- `localStorage.setItem`. -/
def Store.setItem (store : Store) (k : String) (v : JVal) : Store :=
  (k, v) :: List.filter (fun p => p.1 ≠ k) store

/-- `localStorage.removeItem`. -/
def Store.removeItem (store : Store) (k : String) : Store :=
  List.filter (fun p => p.1 ≠ k) store

/-- `parseInt` applied to a stored value (a stringified number parses
back to itself; JSON text yields NaN). -/
def jsParseIntJ : JVal → Option Int
  | .s v => jsParseInt v
  | .num n => some n
  | _ => none

/-- stateManager.js storage keys. -/
def KEY_AUTO_RELOAD : String := "autoReloadInProgress"

def KEY_MAP_VIEW : String := "mapViewState"

def KEY_SELECTED_UID : String := "selectedSystemUid"

def KEY_DISPLAY_OPTIONS : String := "displayOptions"

def KEY_THRESHOLD : String := "thresholdFilter"

def KEY_LAYER_INDEX : String := "currentLayerIndex"

def KEY_SHOW_TRAJECTORY : String := "showTrajectory"

def KEY_CHART_POSITION : String := "chartPosition"

def KEY_LAST_INTERACTION : String := "lastUserInteraction"

def KEY_MANUAL_RESET : String := "manualResetRequested"

/-- stateManager.js `AUTO_RELOAD_TIMEOUT` (5 minutes in ms). -/
def AUTO_RELOAD_TIMEOUT : Int := 5 * 60 * 1000

/-- stateManager.js `clearAllState`: purge every persisted state key,
including the map viewport (the preferred base layer is kept). -/
def clearAllState (store : Store) : Store :=
  ((((((((store.removeItem KEY_SELECTED_UID).removeItem KEY_DISPLAY_OPTIONS).removeItem
    KEY_THRESHOLD).removeItem KEY_LAYER_INDEX).removeItem KEY_SHOW_TRAJECTORY).removeItem
    KEY_MAP_VIEW).removeItem KEY_CHART_POSITION).removeItem KEY_AUTO_RELOAD).removeItem
    KEY_LAST_INTERACTION |>.removeItem KEY_MANUAL_RESET

/-- stateManager.js `clearUIState`: clear selection, display options,
trajectory flag and the auto-reload flag, keeping map view, threshold
and layer index. -/
def clearUIState (store : Store) : Store :=
  (((store.removeItem KEY_SELECTED_UID).removeItem KEY_DISPLAY_OPTIONS).removeItem
    KEY_SHOW_TRAJECTORY).removeItem KEY_AUTO_RELOAD

/-- stateManager.js `checkIfAutoReload` at wall-clock time `now`: the
auto-reload flag is present, parses to a number, and was written within
the timeout window. -/
def checkIfAutoReload (store : Store) (now : Int) : Bool :=
  match store.getItem KEY_AUTO_RELOAD with
  | none => false
  | some v =>
    match jsParseIntJ v with
    | none => false
    | some t => now - t < AUTO_RELOAD_TIMEOUT

/-- stateManager.js `saveState` at wall-clock time `now`: with a
pending manual reset and no auto-reload, clear everything; otherwise
stamp the auto-reload flag (when auto), and persist viewport, selected
uid (deleting the key when none), display options, threshold (when
truthy), layer index, and the trajectory flag. -/
def saveState (st : AppState) (store : Store) (now : Int) (isAutoReload : Bool) : Store :=
  if store.getItem KEY_MANUAL_RESET = some (.s "true") ∧ ¬ isAutoReload then
    clearAllState store
  else
    let store := if isAutoReload then store.setItem KEY_AUTO_RELOAD (.num now) else store
    let store := store.setItem KEY_MAP_VIEW (.viewport st.mapLat st.mapLng st.mapZoom)
    let store :=
      match st.selection.uid with
      | some u => if u ≠ "" then store.setItem KEY_SELECTED_UID (.s u)
                  else store.removeItem KEY_SELECTED_UID
      | none => store.removeItem KEY_SELECTED_UID
    let store := store.setItem KEY_DISPLAY_OPTIONS (.opts st.displayOptions)
    let store :=
      if st.currentThresholdFilter ≠ "" then
        store.setItem KEY_THRESHOLD (.s st.currentThresholdFilter)
      else store
    let store := store.setItem KEY_LAYER_INDEX (.num st.currentIndex)
    let store := store.setItem KEY_SHOW_TRAJECTORY
      (.s (if st.showTrajectoryChecked then "true" else "false"))
    if ¬ isAutoReload then store.setItem KEY_LAST_INTERACTION (.num now) else store

/-- stateManager.js `loadState`: classify the reload; a manual reload
with the reset flag clears everything, a plain manual reload clears
only UI state; an automatic reload restores (signalled by the returned
flag). The `finally` block always drops the auto-reload and
manual-reset flags. -/
def loadState (store : Store) (now : Int) : Bool × Store :=
  let isAuto := checkIfAutoReload store now
  let p : Bool × Store :=
    if ¬ isAuto then
      if store.getItem KEY_MANUAL_RESET = some (.s "true") then (false, clearAllState store)
      else (false, clearUIState store)
    else (true, store)
  (p.1, (p.2.removeItem KEY_AUTO_RELOAD).removeItem KEY_MANUAL_RESET)

/-- core.js `restoreMapViewState`: apply the saved viewport when it
parses and is well-formed; otherwise keep the current view. -/
def restoreMapViewState (store : Store) (st : AppState) : AppState :=
  match store.getItem KEY_MAP_VIEW with
  | some (.viewport la ln z) => { st with mapLat := la, mapLng := ln, mapZoom := z }
  | _ => st

/-- viewOptions.js `updateTrajectoryDisplay`: load or remove the
trajectory overlay according to the checkbox, then persist the flag. -/
def updateTrajectoryDisplay (st : AppState) (store : Store) : AppState × Store :=
  if st.showTrajectoryChecked then
    (loadTrajectoryForCurrentLayer st, store.setItem KEY_SHOW_TRAJECTORY (.s "true"))
  else
    ({ st with currentTrajectoryLayer := none },
      store.setItem KEY_SHOW_TRAJECTORY (.s "false"))

/-! ## UI-state restore (script.js `restoreUIState`) and process start

`restoreUIState` runs inside one `try`/`catch`; a throw keeps the
mutations already made and skips the remaining steps. A non-empty
plain string in the display-options slot is modelled as invalid JSON
(the only values the application ever writes there are stringified
objects), so it throws and aborts. Stored values of other shapes in a
string-typed slot never arise from the application's own writes and
are modelled as skipped. -/

/-- The key-copying loop over a parsed display-options object: a key is
copied only when the state's display-options own it. -/
def applyStoredOpts (m : List (String × Bool)) (opts : List (String × Bool)) :
    List (String × Bool) :=
  m.foldl (fun acc kv => if (List.lookup kv.1 acc).isSome then setOption acc kv.1 kv.2 else acc)
    opts

/-- `restoreUIState`, step 4 (restore layer index) and the final marker
recomputation. An in-range stored index replays `showLayerAtIndex`;
its (unreachable, see `showLayerAtIndex_inBounds`) throw would abort
before the marker update. -/
def restoreFromIndex (store : Store) (st : AppState) : AppState × Store :=
  let next : Option AppState :=
    match store.getItem KEY_LAYER_INDEX with
    | none => some st
    | some v =>
      if v.truthy then
        match jsParseIntJ v with
        | some i =>
          if 0 ≤ i ∧ i < (st.geojsonLayers.length : Int) then
            match showLayerAtIndex st i with
            | .ok s2 => some s2
            | .error _ => none
          else some st
        | none => some st
      else some st
  match next with
  | some s2 => ({ s2 with markers := updateMarkersList s2 }, store)
  | none => (st, store)

/-- `restoreUIState`, step 3: restore the trajectory checkbox and apply
it (which also writes the flag back to storage). -/
def restoreFromTraj (store : Store) (st : AppState) : AppState × Store :=
  match store.getItem KEY_SHOW_TRAJECTORY with
  | some (.s t) =>
    if t ≠ "" then
      let p := updateTrajectoryDisplay { st with showTrajectoryChecked := t = "true" } store
      restoreFromIndex p.2 p.1
    else restoreFromIndex store st
  | _ => restoreFromIndex store st

/-- `restoreUIState`, step 2: restore the threshold filter and
re-render the boundary layer with it. -/
def restoreFromThreshold (store : Store) (st : AppState) : AppState × Store :=
  match store.getItem KEY_THRESHOLD with
  | some (.s t) =>
    if t ≠ "" then restoreFromTraj store (updateBoundaryLayer { st with currentThresholdFilter := t })
    else restoreFromTraj store st
  | _ => restoreFromTraj store st

/-- script.js `restoreUIState` (step 1: display options, then the
chained remaining steps). -/
def restoreUIState (store : Store) (st : AppState) : AppState × Store :=
  match store.getItem KEY_DISPLAY_OPTIONS with
  | some (.s v) =>
    if v = "" then restoreFromThreshold store st
    else (st, store)
  | some (.opts m) =>
    restoreFromThreshold store { st with displayOptions := applyStoredOpts m st.displayOptions }
  | _ => restoreFromThreshold store st

/-- The delayed re-selection of a persisted uid (`initializeApp`'s
`selectedUid` timeout): a non-empty saved uid is re-selected and the
key consumed. -/
def applySavedUid (p : AppState × Store) : AppState × Store :=
  match p.2.getItem KEY_SELECTED_UID with
  | some (.s u) =>
    if u ≠ "" then (selectPolygonByUid p.1 u, p.2.removeItem KEY_SELECTED_UID)
    else p
  | _ => p

/-- The forced boundary/marker refresh run after the delayed map-view
restore (`initializeApp`'s final timeout). -/
def refreshAfterRestore (st : AppState) : AppState :=
  let st4 := updateBoundaryLayer st
  let st4 := { st4 with markers := updateMarkersList st4 }
  if st4.showTrajectoryChecked then loadTrajectoryForCurrentLayer st4 else st4

/-- Process start, after the catalog has loaded: stateManager
classification (`loadState`), the tail of `loadBoundaryLayers` (show
the last layer), then — in event order — the promise continuation that
restores UI state on an automatic reload, the delayed re-selection of
a persisted uid, and the delayed map-view restore with a forced
boundary/marker refresh. -/
def startApp (store0 : Store) (now : Int) (layers : List TimeStep) : AppState × Store :=
  let q := loadState store0 now
  let st0 := initialState layers
  let st1 :=
    match showLayerAtIndex st0 ((layers.length : Int) - 1) with
    | .ok s => s
    | .error _ => st0
  let st1 := { st1 with playing := false }
  let p2 : AppState × Store := if q.1 then restoreUIState q.2 st1 else (st1, q.2)
  let p3 := applySavedUid p2
  (refreshAfterRestore (restoreMapViewState p3.2 p3.1), p3.2)

/-- The rendered layer list built by `updateBoundaryLayer` for one
time-step (the `rendered` local). -/
def renderedOf (tf : String) (uid? : Option String) (step : TimeStep) : List RenderedLayer :=
  (step.features.filter (passesThreshold tf)).map fun f => ⟨f, featureStyle uid? f⟩

/-- Two states agreeing on every field that a layer swap never writes:
catalog, display options, threshold, playback and timer state, the
trajectory checkbox and the map viewport. -/
def Frame (a b : AppState) : Prop :=
  a.geojsonLayers = b.geojsonLayers ∧ a.displayOptions = b.displayOptions ∧
  a.currentThresholdFilter = b.currentThresholdFilter ∧ a.playing = b.playing ∧
  a.playInterval = b.playInterval ∧ a.activeTimers = b.activeTimers ∧
  a.timerCtr = b.timerCtr ∧ a.showTrajectoryChecked = b.showTrajectoryChecked ∧
  a.mapLat = b.mapLat ∧ a.mapLng = b.mapLng ∧ a.mapZoom = b.mapZoom

/-- What a run of the `restoreUIState` pipeline leaves behind, relative
to the store `S` it started from: the UI fields of the resulting state
and the pipeline's own store writes (which never touch the map-view or
selected-uid slots). -/
def RestoreRes (q : AppState × Store) (S : Store) (thr : String) (i : Int)
    (opts : List (String × Bool)) (trajB : Bool) (u0 : Option String)
    (layers : List TimeStep) : Prop :=
  q.1.currentThresholdFilter = thr ∧ q.1.currentIndex = i ∧
  q.1.displayOptions = opts ∧ q.1.showTrajectoryChecked = trajB ∧
  q.1.selection.uid = u0 ∧ q.1.geojsonLayers = layers ∧
  q.2.getItem KEY_MAP_VIEW = S.getItem KEY_MAP_VIEW ∧
  q.2.getItem KEY_SELECTED_UID = S.getItem KEY_SELECTED_UID ∧
  (u0 = none → ∃ step, getAt layers i = some step ∧
    q.1.currentBoundaryLayer = some (renderedOf thr none step))

/-- The SelectionState invariant of the spec (§3): a non-null rendered
feature comes with a non-null layer handle, a non-null layer handle
comes with a non-null uid, and the selected feature's `uid` property
agrees with the stored uid. -/
def SelInv (sel : Selection) : Prop :=
  (sel.feature ≠ none → sel.layer ≠ none) ∧
  (sel.layer ≠ none → sel.uid ≠ none) ∧
  (∀ f, sel.feature = some f → f.uid = sel.uid)

/-! ## Playback timer bookkeeping -/

/-- At most one playback interval is live, and any live interval is the
one `state.playInterval` refers to, with a handle no newer than the
allocator. -/
def timerInv (st : AppState) : Prop :=
  st.activeTimers.length ≤ 1 ∧
  (∀ p ∈ st.activeTimers, st.playInterval = some p.1) ∧
  (∀ h, st.playInterval = some h → h ≤ st.timerCtr)

/-- The user operations that drive the playback scheduler: the
play/pause button and the speed input (whose handler calls
`updatePlayInterval`). -/
inductive PlayerOp where
  | toggle (speedVal : String)
  | speedChange (speedVal : String)

/-- Apply one scheduler operation. -/
def applyPlayerOp (st : AppState) : PlayerOp → AppState
  | .toggle v => togglePlayPause st v
  | .speedChange v => updatePlayInterval st v

/-! ## Spec-side evolution series (for comparison with
`collectTimeSeriesData`) -/

/-- The data points the claim describes: one per loaded time-step whose
features include a feature with the requested uid (taking the first
such feature, with no threshold filtering) and whose file name carries
an extractable timestamp. -/
def claimedPoints (u : String) (layers : List TimeStep) : List DataPoint :=
  layers.filterMap fun step =>
    match extractTimestampKey step.fileName, step.features.find? (fun f => f.uid == some u) with
    | some key, some f => some (mkDataPoint key f)
    | _, _ => none

/-! ## Spec-side marker derivation (for comparison with
`updateMarkersList`) -/

/-- The `"<key>: <value>"` lines for the DisplayOptions-enabled
attributes present on a feature, in display-key order. -/
def labelLines (opts : List (String × Bool)) (f : Feature) : List String :=
  DISPLAY_KEYS.filterMap fun k =>
    if (opts.lookup k).getD false then
      match f.prop k with
      | some v => some (k ++ ": " ++ v)
      | none => none
    else none

/-- Lines joined by HTML line breaks, each line terminated by one (as
the source emits). -/
def joinLinesBr : List String → String
  | [] => ""
  | s :: rest => s ++ "<br>" ++ joinLinesBr rest

/-- The marker the spec's marker-derivation paragraph prescribes for
one threshold-passing feature: for a plain Polygon, a marker at the
mean of the first ring's vertices labelled with the enabled-attribute
lines, none when no enabled attribute is present; no marker for any
other geometry (the code's `computeCentroid` returns null there). -/
def claimedMarkerOf (opts : List (String × Bool)) (f : Feature) : Option Marker :=
  match f.geom with
  | some (Geometry.polygon (ring :: _)) =>
    match labelLines opts f with
    | [] => none
    | lines => some ⟨((ring.map Prod.snd).sum / (ring.length : ℚ),
        (ring.map Prod.fst).sum / (ring.length : ℚ)), joinLinesBr lines⟩
  | _ => none

/-- The spec-side marker list: the claimed marker of every feature of
the current time-step that passes the threshold filter, restricted to
the selected feature's uid when a feature is selected. -/
def claimedMarkers (st : AppState) : List Marker :=
  match getAt st.geojsonLayers st.currentIndex with
  | none => []
  | some step =>
    (step.features.filter (markerKeep st.selection.feature st.currentThresholdFilter)).filterMap
      (claimedMarkerOf st.displayOptions)

instance {ε α : Type} [DecidableEq ε] [DecidableEq α] : DecidableEq (Except ε α) := fun x y =>
  match x, y with
  | .ok a, .ok b =>
    if h : a = b then isTrue (by rw [h]) else isFalse (fun hh => h (Except.ok.inj hh))
  | .error a, .error b =>
    if h : a = b then isTrue (by rw [h]) else isFalse (fun hh => h (Except.error.inj hh))
  | .ok _, .error _ => isFalse (fun hh => by cases hh)
  | .error _, .ok _ => isFalse (fun hh => by cases hh)

/-! ## Concrete instances (sample catalog data used by the closed
statements below) -/

/-- A sample feature: entity `A` at threshold `235.0`. -/
def fA : Feature where
  props := some [("uid", "A"), ("threshold", "235.0"), ("size", "10")]
  geom := some (Geometry.polygon [[(0, 0), (4, 0), (0, 4)]])

/-- A sample feature: entity `B` at threshold `235.0`. -/
def fB : Feature where
  props := some [("uid", "B"), ("threshold", "235.0"), ("size", "7")]
  geom := some (Geometry.polygon [[(10, 0), (14, 0), (10, 4)]])

/-- A sample feature with MultiPolygon geometry. -/
def fMP : Feature where
  props := some [("uid", "M"), ("threshold", "235.0"), ("size", "3")]
  geom := some (Geometry.multiPolygon [[[(0, 0), (2, 0), (0, 2)]]])

/-- Sample time-step containing only `A`. -/
def stepA : TimeStep := ⟨"20230101_0000.geojson", [fA], none⟩

/-- Sample time-step containing only `B` (entity `A` is absent). -/
def stepB : TimeStep := ⟨"20230101_0010.geojson", [fB], none⟩

/-- Sample time-step containing `A` and `B`. -/
def stepAB : TimeStep := ⟨"20230101_0020.geojson", [fA, fB], none⟩

/-- A two-element catalog at index 0 (playback scenario). -/
def c7State : AppState := initialState [stepA, stepB]

/-- A saved display-options object with the uid toggle on. -/
def optsW : List (String × Bool) :=
  [("uid", true), ("status", false), ("size", false), ("min", false), ("ang_", false),
    ("expansion", false)]

/-- A store holding only a saved viewport (manual-reload scenario). -/
def storeManualW : Store := [(KEY_MAP_VIEW, JVal.viewport 1 2 3)]

/-- A store holding the reset flag and a saved viewport. -/
def storeResetW : Store :=
  [(KEY_MANUAL_RESET, JVal.s "true"), (KEY_MAP_VIEW, JVal.viewport 1 2 3)]

/-- A fully-populated store with a fresh auto-reload stamp. -/
def storeAutoW : Store :=
  [(KEY_AUTO_RELOAD, JVal.num 0), (KEY_DISPLAY_OPTIONS, JVal.opts optsW),
    (KEY_THRESHOLD, JVal.s "240.0"), (KEY_SHOW_TRAJECTORY, JVal.s "false"),
    (KEY_LAYER_INDEX, JVal.num 0), (KEY_MAP_VIEW, JVal.viewport 1 2 3)]

/-- A fully-populated auto-reload store that also saves uid "A" and
layer index 0 — entity "A" is present at step 0 of the 2-step
catalog. -/
def storeAutoSelW : Store :=
  [(KEY_AUTO_RELOAD, JVal.num 0), (KEY_SELECTED_UID, JVal.s "A"),
    (KEY_DISPLAY_OPTIONS, JVal.opts optsW), (KEY_THRESHOLD, JVal.s "235.0"),
    (KEY_SHOW_TRAJECTORY, JVal.s "false"), (KEY_LAYER_INDEX, JVal.num 0),
    (KEY_MAP_VIEW, JVal.viewport 1 2 3)]

/-- A fully-populated auto-reload store saving uid "A" but layer index
1 — step 1 of the 2-step catalog holds only entity "B", so the saved
entity is absent at the restored index. -/
def storeAutoMissW : Store :=
  [(KEY_AUTO_RELOAD, JVal.num 0), (KEY_SELECTED_UID, JVal.s "A"),
    (KEY_DISPLAY_OPTIONS, JVal.opts optsW), (KEY_THRESHOLD, JVal.s "235.0"),
    (KEY_SHOW_TRAJECTORY, JVal.s "false"), (KEY_LAYER_INDEX, JVal.num 1),
    (KEY_MAP_VIEW, JVal.viewport 1 2 3)]

/-- A two-element catalog at index 0 with entity `A` selected by uid. -/
def c2State : AppState :=
  { initialState [stepA, stepB] with selection := ⟨none, none, some "A"⟩ }

/-- A one-step catalog whose only feature is a MultiPolygon, with the
`uid` label toggle enabled. -/
def c9State : AppState :=
  { initialState [⟨"20230101_0000.geojson", [fMP], none⟩] with
    displayOptions := setOption (DISPLAY_KEYS.map fun k => (k, false)) "uid" true }

/-- A one-step catalog whose only feature is the polygon `fA`, with the
`uid` label toggle enabled. -/
def c9PolyState : AppState :=
  { initialState [stepA, stepB] with
    displayOptions := setOption (DISPLAY_KEYS.map fun k => (k, false)) "uid" true }

/-! ## Shape lemmas: which state fields each operation can touch -/

theorem collect_snd_shape (st : AppState) (u : String) :
    ∃ dc, (collectTimeSeriesData st u).2 = { st with dataCache := dc } := by
  unfold collectTimeSeriesData
  cases h : st.dataCache.lookup u with
  | none => exact ⟨_, rfl⟩
  | some d => exact ⟨st.dataCache, rfl⟩

theorem updateChartF_shape (st : AppState) (f : Feature) :
    ∃ dc cv, updateChartF st f = { st with dataCache := dc, chartVisible := cv } := by
  unfold updateChartF
  cases hp : f.props with
  | none => exact ⟨st.dataCache, st.chartVisible, rfl⟩
  | some l =>
    obtain ⟨dc, hdc⟩ := collect_snd_shape st (f.uid.getD "N/A")
    refine ⟨dc, ?_, ?_⟩
    · exact if ((collectTimeSeriesData st (f.uid.getD "N/A")).1.points.isEmpty) then false else true
    · simp only [hdc]
      split <;> simp_all

theorem updateBoundaryLayer_shape (st : AppState) :
    ∃ bl tl, updateBoundaryLayer st =
      { st with selection := ⟨none, none, st.selection.uid⟩,
                currentBoundaryLayer := bl, currentTrajectoryLayer := tl } := by
  simp only [updateBoundaryLayer]
  cases h : getAt st.geojsonLayers st.currentIndex with
  | none => exact ⟨st.currentBoundaryLayer, st.currentTrajectoryLayer, by simp [h]⟩
  | some step => exact ⟨_, none, rfl⟩

theorem loadTrajectory_shape (st : AppState) :
    ∃ tl, loadTrajectoryForCurrentLayer st = { st with currentTrajectoryLayer := tl } := by
  simp only [loadTrajectoryForCurrentLayer]
  cases h : getAt st.geojsonLayers st.currentIndex with
  | none => exact ⟨st.currentTrajectoryLayer, by simp [h]⟩
  | some step =>
    cases htr : step.trajectoryGeojson with
    | none => exact ⟨none, by simp [h, htr]⟩
    | some geo => exact ⟨_, by simp only [htr]; rfl⟩

theorem updateTimestampInfoF_shape (st : AppState) :
    ∃ ts, updateTimestampInfoF st = { st with timestampText := ts } := by
  simp only [updateTimestampInfoF]
  cases h : getAt st.geojsonLayers st.currentIndex with
  | none => exact ⟨st.timestampText, by simp [h]⟩
  | some step =>
    by_cases hf : step.fileName = ""
    · exact ⟨st.timestampText, by simp [h, hf]⟩
    · exact ⟨some (extractTimestampKey step.fileName), by simp [h, hf]⟩

theorem scanFold_shape (uid tf : String) (ls : List RenderedLayer) :
    ∀ (st : AppState) (b : Bool), ∃ fl ly bl dc cv b2,
      ls.foldl (scanStep uid tf) (st, b) =
        ({ st with selection := ⟨fl, ly, st.selection.uid⟩, currentBoundaryLayer := bl,
                   dataCache := dc, chartVisible := cv }, b2) := by
  induction ls with
  | nil =>
    intro st b
    exact ⟨st.selection.feature, st.selection.layer, st.currentBoundaryLayer,
      st.dataCache, st.chartVisible, b, rfl⟩
  | cons l rest ih =>
    intro st b
    simp only [List.foldl_cons]
    by_cases h : scanHit uid tf l
    · simp only [scanStep, h, if_pos]
      obtain ⟨dc0, cv0, hch⟩ := updateChartF_shape
        { st with
          selection := { st.selection with
            feature := some l.feature, layer := some { l with style := PolyStyle.selected } },
          currentBoundaryLayer := setStyleOn st.currentBoundaryLayer l.feature .selected }
        l.feature
      rw [hch]
      obtain ⟨fl, ly, bl, dc, cv, b2, hr⟩ := ih
        { st with
          selection := ⟨some l.feature, some { l with style := PolyStyle.selected },
            st.selection.uid⟩,
          currentBoundaryLayer := setStyleOn st.currentBoundaryLayer l.feature .selected,
          dataCache := dc0, chartVisible := cv0 } true
      exact ⟨fl, ly, bl, dc, cv, b2, hr⟩
    · simp only [scanStep, h, if_neg, Bool.false_eq_true, ite_false]
      exact ih st b

theorem getAt_inBounds (l : List TimeStep) (i : Int) (h0 : 0 ≤ i)
    (h1 : i < (l.length : Int)) : ∃ step, getAt l i = some step := by
  unfold getAt
  rw [if_pos h0]
  have h2 : i.toNat < l.length := by omega
  exact ⟨_, List.get?_eq_get h2⟩

theorem updateBoundaryLayer_hit (st : AppState) (step : TimeStep)
    (h : getAt st.geojsonLayers st.currentIndex = some step) :
    updateBoundaryLayer st = { st with
      selection := ⟨none, none, st.selection.uid⟩,
      currentBoundaryLayer := some (renderedOf st.currentThresholdFilter st.selection.uid step),
      currentTrajectoryLayer := none } := by
  simp only [updateBoundaryLayer, renderedOf, h]

theorem scanFold_nomatch (uid tf : String) (ls : List RenderedLayer) :
    ∀ (st : AppState) (b : Bool), (∀ l ∈ ls, scanHit uid tf l = false) →
      ls.foldl (scanStep uid tf) (st, b) = (st, b) := by
  induction ls with
  | nil => intro st b _; rfl
  | cons l rest ih =>
    intro st b h
    have hl : scanHit uid tf l = false := h l (List.mem_cons_self l rest)
    simp only [List.foldl_cons, scanStep, hl, Bool.false_eq_true, if_false]
    exact ih st b fun x hx => h x (List.mem_cons_of_mem l hx)

theorem scanFold_sel (uid tf : String) (ls : List RenderedLayer) :
    ∀ (st : AppState) (b : Bool),
      (ls.foldl (scanStep uid tf) (st, b)).1.selection.uid = st.selection.uid ∧
      (((ls.foldl (scanStep uid tf) (st, b)).2 = b ∧
        (ls.foldl (scanStep uid tf) (st, b)).1.selection.feature = st.selection.feature ∧
        (ls.foldl (scanStep uid tf) (st, b)).1.selection.layer = st.selection.layer) ∨
       (∃ l, scanHit uid tf l = true ∧
        (ls.foldl (scanStep uid tf) (st, b)).1.selection.feature = some l.feature ∧
        (ls.foldl (scanStep uid tf) (st, b)).1.selection.layer =
          some { l with style := PolyStyle.selected })) := by
  induction ls with
  | nil => intro st b; exact ⟨rfl, Or.inl ⟨rfl, rfl, rfl⟩⟩
  | cons l rest ih =>
    intro st b
    by_cases h : scanHit uid tf l
    · simp only [List.foldl_cons, scanStep, h, if_pos]
      obtain ⟨dc0, cv0, hch⟩ := updateChartF_shape
        { st with
          selection := { st.selection with
            feature := some l.feature, layer := some { l with style := PolyStyle.selected } },
          currentBoundaryLayer := setStyleOn st.currentBoundaryLayer l.feature .selected }
        l.feature
      rw [hch]
      obtain ⟨huid, hrest⟩ := ih
        { st with
          selection := ⟨some l.feature, some { l with style := PolyStyle.selected },
            st.selection.uid⟩,
          currentBoundaryLayer := setStyleOn st.currentBoundaryLayer l.feature .selected,
          dataCache := dc0, chartVisible := cv0 } true
      refine ⟨huid, ?_⟩
      rcases hrest with ⟨_, hf, hl2⟩ | ⟨l2, hhit, hf, hl2⟩
      · exact Or.inr ⟨l, h, hf, hl2⟩
      · exact Or.inr ⟨l2, hhit, hf, hl2⟩
    · simp only [List.foldl_cons, scanStep, h, Bool.false_eq_true, if_false]
      exact ih st b

theorem restoreSelection_shape (uid : String) (st : AppState) (ls : List RenderedLayer)
    (h : st.currentBoundaryLayer = some ls) :
    ∃ fl ly dc cv bl,
      restoreSelection uid st = .ok { st with
        selection := ⟨fl, ly, st.selection.uid⟩,
        currentBoundaryLayer := bl, dataCache := dc, chartVisible := cv } := by
  simp only [restoreSelection, h]
  obtain ⟨fl, ly, bl, dc, cv, b2, hr⟩ := scanFold_shape uid st.currentThresholdFilter ls st false
  rw [hr]
  cases b2 with
  | true => exact ⟨fl, ly, dc, cv, bl, rfl⟩
  | false => exact ⟨none, none, dc, false, bl, rfl⟩

theorem restoreSelection_ok (uid : String) (st st' : AppState)
    (h : restoreSelection uid st = .ok st') :
    ∃ fl ly bl dc cv, st' = { st with
      selection := ⟨fl, ly, st.selection.uid⟩,
      currentBoundaryLayer := bl, dataCache := dc, chartVisible := cv } := by
  unfold restoreSelection at h
  cases hbl : st.currentBoundaryLayer with
  | none => rw [hbl] at h; exact absurd h (by simp)
  | some ls =>
    rw [hbl] at h
    dsimp only at h
    obtain ⟨fl, ly, bl, dc, cv, b2, hr⟩ := scanFold_shape uid st.currentThresholdFilter ls st false
    rw [hr] at h
    cases b2 with
    | true =>
      simp only [if_true] at h
      exact ⟨fl, ly, bl, dc, cv, (Except.ok.inj h).symm⟩
    | false =>
      simp only [Bool.false_eq_true, if_false] at h
      exact ⟨none, none, bl, dc, false, (Except.ok.inj h).symm⟩

theorem restoreSelection_err (uid : String) (st : AppState) (e : String)
    (h : restoreSelection uid st = .error e) : st.currentBoundaryLayer = none := by
  unfold restoreSelection at h
  cases hbl : st.currentBoundaryLayer with
  | none => rfl
  | some ls =>
    rw [hbl] at h
    dsimp only at h
    exfalso
    by_cases hb : (ls.foldl (scanStep uid st.currentThresholdFilter) (st, false)).2 <;>
      simp [hb] at h

theorem showTail_fields (sb : Bool) (m : AppState) :
    Frame (showTail sb m) m ∧ (showTail sb m).currentIndex = m.currentIndex ∧
    (showTail sb m).timelineValue = m.currentIndex ∧
    (showTail sb m).selection = m.selection ∧
    (showTail sb m).chartVisible = m.chartVisible ∧
    (showTail sb m).dataCache = m.dataCache ∧
    (showTail sb m).currentBoundaryLayer = m.currentBoundaryLayer := by
  simp only [showTail, updateTimestampInfoF, loadTrajectoryForCurrentLayer]
  repeat' split
  all_goals simp_all [Frame]

theorem frameTrans {a b c : AppState} (h1 : Frame a b) (h2 : Frame b c) : Frame a c := by
  obtain ⟨q1, q2, q3, q4, q5, q6, q7, q8, q9, q10, q11⟩ := h1
  obtain ⟨r1, r2, r3, r4, r5, r6, r7, r8, r9, r10, r11⟩ := h2
  exact ⟨q1.trans r1, q2.trans r2, q3.trans r3, q4.trans r4, q5.trans r5, q6.trans r6,
    q7.trans r7, q8.trans r8, q9.trans r9, q10.trans r10, q11.trans r11⟩

theorem showTail_conclusion (sb : Bool) (m st : AppState) (i : Int) (u0 : Option String)
    (hFr : Frame m st) (hci : m.currentIndex = i)
    (huid : m.selection.uid = u0) :
    Frame (showTail sb m) st ∧ (showTail sb m).currentIndex = i ∧
    (showTail sb m).timelineValue = i ∧
    (showTail sb m).selection.uid = u0 := by
  obtain ⟨hfr, hci2, htv, hsl, _, _, _⟩ := showTail_fields sb m
  exact ⟨frameTrans hfr hFr, hci2.trans hci, htv.trans hci,
    (congrArg Selection.uid hsl).trans huid⟩

theorem showLayerAtIndex_inBounds (st : AppState) (i : Int) (h0 : 0 ≤ i)
    (h1 : i < (st.geojsonLayers.length : Int)) :
    ∃ st', showLayerAtIndex st i = .ok st' ∧ Frame st' st ∧
      st'.currentIndex = i ∧ st'.timelineValue = i ∧
      st'.selection.uid = st.selection.uid := by
  obtain ⟨step, hstep⟩ := getAt_inBounds st.geojsonLayers i h0 h1
  have hcond : ¬ (i < 0 ∨ (st.geojsonLayers.length : Int) ≤ i) := by omega
  rw [showLayerAtIndex, if_neg hcond]
  simp only [updateBoundaryLayer, Except.map, hstep]
  cases hsel : st.selection.uid with
  | none =>
    dsimp only
    refine ⟨_, rfl, showTail_conclusion _ _ _ i _ ?_ ?_ ?_⟩
    · simp [Frame]
    · simp
    · simp [hsel]
  | some u =>
    dsimp only
    split
    case h_1 e heq =>
      have := restoreSelection_err u _ e heq
      simp at this
    case h_2 a heq =>
      obtain ⟨fl, ly, bl, dc, cv, ha⟩ := restoreSelection_ok u _ a heq
      subst ha
      refine ⟨_, rfl, showTail_conclusion _ _ _ i _ ?_ ?_ ?_⟩
      · simp [Frame]
      · simp
      · simp

/-- Like `showTail_conclusion`, additionally carrying the boundary
layer through the tail. -/
theorem showTail_boundary_conclusion (sb : Bool) (m st : AppState) (i : Int)
    (bl : Option (List RenderedLayer))
    (hFr : Frame m st) (hci : m.currentIndex = i) (huid : m.selection.uid = none)
    (hbl : m.currentBoundaryLayer = bl) :
    Frame (showTail sb m) st ∧ (showTail sb m).currentIndex = i ∧
    (showTail sb m).selection.uid = none ∧
    (showTail sb m).currentBoundaryLayer = bl := by
  obtain ⟨hfr, hci2, _, hsl, _, _, hbl2⟩ := showTail_fields sb m
  exact ⟨frameTrans hfr hFr, hci2.trans hci, (congrArg Selection.uid hsl).trans huid,
    hbl2.trans hbl⟩

/-- `showLayerAtIndex` at a valid index from a state with no selected
uid: besides the frame facts, the new boundary layer is exactly the
threshold-filtered rendering of the step at that index. -/
theorem showLayerAtIndex_boundary (st : AppState) (i : Int) (step : TimeStep)
    (h0 : 0 ≤ i) (h1 : i < (st.geojsonLayers.length : Int))
    (hsel : st.selection.uid = none)
    (hstep : getAt st.geojsonLayers i = some step) :
    ∃ st2, showLayerAtIndex st i = .ok st2 ∧ Frame st2 st ∧
      st2.currentIndex = i ∧ st2.selection.uid = none ∧
      st2.currentBoundaryLayer =
        some (renderedOf st.currentThresholdFilter none step) := by
  have hcond : ¬ (i < 0 ∨ (st.geojsonLayers.length : Int) ≤ i) := by omega
  rw [showLayerAtIndex, if_neg hcond]
  simp only [updateBoundaryLayer, Except.map, hstep, hsel]
  refine ⟨_, rfl, showTail_boundary_conclusion _ _ _ i _ ?_ ?_ ?_ ?_⟩
  · simp [Frame]
  · simp
  · simp
  · simp [renderedOf]

/-! ## Store lookup laws -/

theorem lookup_filter_ne_self (k : String) (l : List (String × JVal)) :
    List.lookup k (l.filter fun p => p.1 ≠ k) = none := by
  induction l with
  | nil => rfl
  | cons p rest ih =>
    by_cases hp : p.1 = k
    · simpa [List.filter_cons, hp] using ih
    · have hb : (k == p.1) = false := beq_eq_false_iff_ne.mpr fun h => hp h.symm
      simpa [List.filter_cons, hp, List.lookup, hb] using ih

theorem lookup_filter_ne_other (k k' : String) (h : k' ≠ k) (l : List (String × JVal)) :
    List.lookup k' (l.filter fun p => p.1 ≠ k) = List.lookup k' l := by
  induction l with
  | nil => rfl
  | cons p rest ih =>
    by_cases hp : p.1 = k
    · have hb : (k' == p.1) = false := beq_eq_false_iff_ne.mpr (by rw [hp]; exact h)
      have hb' : (k' == k) = false := beq_eq_false_iff_ne.mpr h
      simpa [List.filter_cons, hp, List.lookup, hb, hb'] using ih
    · by_cases hk' : k' = p.1
      · have hb : (k' == p.1) = true := beq_iff_eq.mpr hk'
        simp [List.filter_cons, hp, List.lookup, hb]
      · have hb : (k' == p.1) = false := beq_eq_false_iff_ne.mpr hk'
        simpa [List.filter_cons, hp, List.lookup, hb] using ih

theorem getItem_setItem (s : Store) (k k' : String) (v : JVal) :
    (s.setItem k v).getItem k' = if k' = k then some v else s.getItem k' := by
  by_cases h : k' = k
  · have hb : (k' == k) = true := beq_iff_eq.mpr h
    simp only [Store.setItem, Store.getItem, List.lookup, hb, if_pos h]
  · have hb : (k' == k) = false := beq_eq_false_iff_ne.mpr h
    simp only [Store.setItem, Store.getItem, List.lookup, hb, if_neg h]
    exact lookup_filter_ne_other k k' h s

theorem getItem_removeItem (s : Store) (k k' : String) :
    (s.removeItem k).getItem k' = if k' = k then none else s.getItem k' := by
  by_cases h : k' = k
  · rw [if_pos h, h]
    exact lookup_filter_ne_self k s
  · rw [if_neg h]
    exact lookup_filter_ne_other k k' h s

theorem rm2_getItem (s : Store) (k : String) (h1 : k ≠ KEY_AUTO_RELOAD)
    (h2 : k ≠ KEY_MANUAL_RESET) :
    ((s.removeItem KEY_AUTO_RELOAD).removeItem KEY_MANUAL_RESET).getItem k = s.getItem k := by
  rw [getItem_removeItem, if_neg h2, getItem_removeItem, if_neg h1]

theorem clearUI2_selected (s : Store) :
    (((clearUIState s).removeItem KEY_AUTO_RELOAD).removeItem KEY_MANUAL_RESET).getItem
      KEY_SELECTED_UID = none := by
  simp +decide [clearUIState, getItem_removeItem, KEY_SELECTED_UID, KEY_AUTO_RELOAD,
    KEY_MANUAL_RESET, KEY_DISPLAY_OPTIONS, KEY_SHOW_TRAJECTORY]

theorem clearUI2_mapview (s : Store) :
    (((clearUIState s).removeItem KEY_AUTO_RELOAD).removeItem KEY_MANUAL_RESET).getItem
      KEY_MAP_VIEW = s.getItem KEY_MAP_VIEW := by
  simp +decide [clearUIState, getItem_removeItem, KEY_MAP_VIEW, KEY_SELECTED_UID,
    KEY_AUTO_RELOAD, KEY_MANUAL_RESET, KEY_DISPLAY_OPTIONS, KEY_SHOW_TRAJECTORY]

theorem clearAll2_selected (s : Store) :
    (((clearAllState s).removeItem KEY_AUTO_RELOAD).removeItem KEY_MANUAL_RESET).getItem
      KEY_SELECTED_UID = none := by
  simp +decide [clearAllState, getItem_removeItem, KEY_SELECTED_UID, KEY_AUTO_RELOAD,
    KEY_MANUAL_RESET, KEY_DISPLAY_OPTIONS, KEY_SHOW_TRAJECTORY, KEY_MAP_VIEW, KEY_THRESHOLD,
    KEY_LAYER_INDEX, KEY_CHART_POSITION, KEY_LAST_INTERACTION]

theorem clearAll2_mapview (s : Store) :
    (((clearAllState s).removeItem KEY_AUTO_RELOAD).removeItem KEY_MANUAL_RESET).getItem
      KEY_MAP_VIEW = none := by
  simp +decide [clearAllState, getItem_removeItem, KEY_SELECTED_UID, KEY_AUTO_RELOAD,
    KEY_MANUAL_RESET, KEY_DISPLAY_OPTIONS, KEY_SHOW_TRAJECTORY, KEY_MAP_VIEW, KEY_THRESHOLD,
    KEY_LAYER_INDEX, KEY_CHART_POSITION, KEY_LAST_INTERACTION]

/-! ## `loadState` classification -/

theorem loadState_manual (store : Store) (now : Int)
    (hAuto : checkIfAutoReload store now = false)
    (hMR : store.getItem KEY_MANUAL_RESET ≠ some (JVal.s "true")) :
    loadState store now =
      (false, ((clearUIState store).removeItem KEY_AUTO_RELOAD).removeItem KEY_MANUAL_RESET) := by
  simp [loadState, hAuto, hMR]

theorem loadState_reset (store : Store) (now : Int)
    (hAuto : checkIfAutoReload store now = false)
    (hMR : store.getItem KEY_MANUAL_RESET = some (JVal.s "true")) :
    loadState store now =
      (false, ((clearAllState store).removeItem KEY_AUTO_RELOAD).removeItem KEY_MANUAL_RESET) := by
  simp [loadState, hAuto, hMR]

theorem loadState_auto (store : Store) (now : Int)
    (hAuto : checkIfAutoReload store now = true) :
    loadState store now =
      (true, (store.removeItem KEY_AUTO_RELOAD).removeItem KEY_MANUAL_RESET) := by
  simp [loadState, hAuto]

/-! ## Shapes of the start-up stages -/

theorem selectPolygonByUid_shape (st : AppState) (u : String) :
    ∃ sel bl, selectPolygonByUid st u =
      { st with selection := sel, currentBoundaryLayer := bl } := by
  simp only [selectPolygonByUid]
  cases h : st.currentBoundaryLayer with
  | none => exact ⟨⟨none, none, st.selection.uid⟩, none, rfl⟩
  | some ls =>
    dsimp only
    cases hm : (ls.filter (scanHit u st.currentThresholdFilter)).getLast? with
    | some lastL => simp only [hm]; exact ⟨_, _, rfl⟩
    | none => simp only [hm]; exact ⟨⟨none, none, st.selection.uid⟩, some ls, rfl⟩

theorem selectPolygonByUid_hit_uid (st : AppState) (u : String) (ls : List RenderedLayer)
    (hbl : st.currentBoundaryLayer = some ls)
    (hne : ls.filter (scanHit u st.currentThresholdFilter) ≠ []) :
    (selectPolygonByUid st u).selection.uid = some u := by
  simp only [selectPolygonByUid, hbl]
  cases hm : (ls.filter (scanHit u st.currentThresholdFilter)).getLast? with
  | none =>
    have := List.getLast?_isSome.mpr hne
    rw [hm] at this
    simp at this
  | some lastL => simp only [hm]

theorem selectPolygonByUid_miss_uid (st : AppState) (u : String) (ls : List RenderedLayer)
    (hbl : st.currentBoundaryLayer = some ls)
    (hnil : ls.filter (scanHit u st.currentThresholdFilter) = []) :
    (selectPolygonByUid st u).selection.uid = st.selection.uid := by
  simp only [selectPolygonByUid, hbl, hnil, List.getLast?_nil]

theorem applySavedUid_sel (p : AppState × Store) (u : String)
    (h : p.2.getItem KEY_SELECTED_UID = some (JVal.s u)) (hu : u ≠ "") :
    applySavedUid p = (selectPolygonByUid p.1 u, p.2.removeItem KEY_SELECTED_UID) := by
  simp [applySavedUid, h, hu]

theorem refreshAfterRestore_shape (m : AppState) :
    ∃ bl tl mk, refreshAfterRestore m = { m with
      selection := ⟨none, none, m.selection.uid⟩, currentBoundaryLayer := bl,
      currentTrajectoryLayer := tl, markers := mk } := by
  simp only [refreshAfterRestore]
  obtain ⟨bl, tl, hub⟩ := updateBoundaryLayer_shape m
  rw [hub]
  dsimp only
  cases htr : m.showTrajectoryChecked with
  | false =>
    rw [if_neg (by simp [htr])]
    exact ⟨_, _, _, rfl⟩
  | true =>
    rw [if_pos (by simp [htr])]
    obtain ⟨tl2, hlt⟩ := loadTrajectory_shape _
    rw [hlt]
    exact ⟨_, _, _, rfl⟩

theorem restoreMapViewState_shape (S : Store) (st : AppState) :
    ∃ la ln z, restoreMapViewState S st =
      { st with mapLat := la, mapLng := ln, mapZoom := z } := by
  simp only [restoreMapViewState]
  cases h : S.getItem KEY_MAP_VIEW with
  | none => exact ⟨st.mapLat, st.mapLng, st.mapZoom, rfl⟩
  | some v =>
    cases v with
    | s w => exact ⟨st.mapLat, st.mapLng, st.mapZoom, rfl⟩
    | num n => exact ⟨st.mapLat, st.mapLng, st.mapZoom, rfl⟩
    | viewport la ln z => exact ⟨la, ln, z, rfl⟩
    | opts m => exact ⟨st.mapLat, st.mapLng, st.mapZoom, rfl⟩

theorem restoreMapViewState_viewport (S : Store) (st : AppState) (la ln z : ℚ)
    (h : S.getItem KEY_MAP_VIEW = some (JVal.viewport la ln z)) :
    restoreMapViewState S st = { st with mapLat := la, mapLng := ln, mapZoom := z } := by
  simp only [restoreMapViewState, h]

theorem restoreMapViewState_none (S : Store) (st : AppState)
    (h : S.getItem KEY_MAP_VIEW = none) : restoreMapViewState S st = st := by
  simp only [restoreMapViewState, h]

theorem applySavedUid_fields (p : AppState × Store) :
    (applySavedUid p).1.currentIndex = p.1.currentIndex ∧
    (applySavedUid p).1.currentThresholdFilter = p.1.currentThresholdFilter ∧
    (applySavedUid p).1.displayOptions = p.1.displayOptions ∧
    (applySavedUid p).1.showTrajectoryChecked = p.1.showTrajectoryChecked ∧
    (applySavedUid p).1.geojsonLayers = p.1.geojsonLayers ∧
    (applySavedUid p).2.getItem KEY_MAP_VIEW = p.2.getItem KEY_MAP_VIEW := by
  simp only [applySavedUid]
  cases h : p.2.getItem KEY_SELECTED_UID with
  | none => exact ⟨rfl, rfl, rfl, rfl, rfl, rfl⟩
  | some v =>
    cases v with
    | s u =>
      dsimp only
      by_cases hu : u ≠ ""
      · rw [if_pos hu]
        obtain ⟨sel, bl, hs⟩ := selectPolygonByUid_shape p.1 u
        rw [hs]
        refine ⟨rfl, rfl, rfl, rfl, rfl, ?_⟩
        rw [getItem_removeItem, if_neg (by decide)]
      · rw [if_neg hu]
        exact ⟨rfl, rfl, rfl, rfl, rfl, rfl⟩
    | num n => exact ⟨rfl, rfl, rfl, rfl, rfl, rfl⟩
    | viewport la ln z => exact ⟨rfl, rfl, rfl, rfl, rfl, rfl⟩
    | opts m => exact ⟨rfl, rfl, rfl, rfl, rfl, rfl⟩

theorem startFinish_ui (S : Store) (st : AppState) :
    (refreshAfterRestore (restoreMapViewState S st)).currentThresholdFilter =
      st.currentThresholdFilter ∧
    (refreshAfterRestore (restoreMapViewState S st)).currentIndex = st.currentIndex ∧
    (refreshAfterRestore (restoreMapViewState S st)).displayOptions = st.displayOptions ∧
    (refreshAfterRestore (restoreMapViewState S st)).showTrajectoryChecked =
      st.showTrajectoryChecked ∧
    (refreshAfterRestore (restoreMapViewState S st)).selection =
      ⟨none, none, st.selection.uid⟩ := by
  obtain ⟨la, ln, z, hmv⟩ := restoreMapViewState_shape S st
  rw [hmv]
  obtain ⟨bl, tl, mk, hr⟩ := refreshAfterRestore_shape
    { st with mapLat := la, mapLng := ln, mapZoom := z }
  rw [hr]
  exact ⟨rfl, rfl, rfl, rfl, rfl⟩

theorem startFinish_view (S : Store) (st : AppState) (la ln z : ℚ)
    (h : S.getItem KEY_MAP_VIEW = some (JVal.viewport la ln z)) :
    (refreshAfterRestore (restoreMapViewState S st)).mapLat = la ∧
    (refreshAfterRestore (restoreMapViewState S st)).mapLng = ln ∧
    (refreshAfterRestore (restoreMapViewState S st)).mapZoom = z := by
  rw [restoreMapViewState_viewport S st la ln z h]
  obtain ⟨bl, tl, mk, hr⟩ := refreshAfterRestore_shape
    { st with mapLat := la, mapLng := ln, mapZoom := z }
  rw [hr]
  exact ⟨rfl, rfl, rfl⟩

theorem startFinish_view_none (S : Store) (st : AppState)
    (h : S.getItem KEY_MAP_VIEW = none) :
    (refreshAfterRestore (restoreMapViewState S st)).mapLat = st.mapLat ∧
    (refreshAfterRestore (restoreMapViewState S st)).mapLng = st.mapLng ∧
    (refreshAfterRestore (restoreMapViewState S st)).mapZoom = st.mapZoom := by
  rw [restoreMapViewState_none S st h]
  obtain ⟨bl, tl, mk, hr⟩ := refreshAfterRestore_shape st
  rw [hr]
  exact ⟨rfl, rfl, rfl⟩

/-! ## The `restoreUIState` pipeline -/

theorem restoreFromIndex_result (S : Store) (s : AppState) (i : Int)
    (hidx : S.getItem KEY_LAYER_INDEX = some (JVal.num i))
    (hi0 : 0 ≤ i) (hi1 : i < (s.geojsonLayers.length : Int)) :
    RestoreRes (restoreFromIndex S s) S s.currentThresholdFilter i s.displayOptions
      s.showTrajectoryChecked s.selection.uid s.geojsonLayers := by
  obtain ⟨s2, hok, hFr, hci, htv, hsel⟩ := showLayerAtIndex_inBounds s i hi0 hi1
  obtain ⟨hg, hdo, hth, hpl, hpi, hat, htc2, hstc, hla, hln, hz⟩ := hFr
  have hshape : restoreFromIndex S s = ({ s2 with markers := updateMarkersList s2 }, S) := by
    simp only [restoreFromIndex, hidx, JVal.truthy, jsParseIntJ, eq_self_iff_true, if_true]
    rw [if_pos ⟨hi0, hi1⟩, hok]
  unfold RestoreRes
  rw [hshape]
  refine ⟨hth, hci, hdo, hstc, hsel, hg, rfl, rfl, ?_⟩
  intro hu
  obtain ⟨step, hstep⟩ := getAt_inBounds s.geojsonLayers i hi0 hi1
  obtain ⟨st2, hok2, _, _, _, hbl2⟩ := showLayerAtIndex_boundary s i step hi0 hi1 hu hstep
  have he : s2 = st2 := Except.ok.inj (hok.symm.trans hok2)
  exact ⟨step, hstep, (congrArg AppState.currentBoundaryLayer he).trans hbl2⟩

theorem updateTrajectoryDisplay_result (s : AppState) (S : Store) :
    ∃ s2 v, updateTrajectoryDisplay s S = (s2, S.setItem KEY_SHOW_TRAJECTORY (JVal.s v)) ∧
      s2.currentThresholdFilter = s.currentThresholdFilter ∧
      s2.currentIndex = s.currentIndex ∧ s2.displayOptions = s.displayOptions ∧
      s2.showTrajectoryChecked = s.showTrajectoryChecked ∧
      s2.selection.uid = s.selection.uid ∧ s2.geojsonLayers = s.geojsonLayers := by
  cases htc : s.showTrajectoryChecked with
  | true =>
    obtain ⟨tl, hlt⟩ := loadTrajectory_shape s
    refine ⟨loadTrajectoryForCurrentLayer s, "true", ?_, ?_, ?_, ?_, ?_, ?_, ?_⟩ <;>
      simp [updateTrajectoryDisplay, htc, hlt]
  | false =>
    refine ⟨{ s with currentTrajectoryLayer := none }, "false", ?_, rfl, rfl, rfl, htc, rfl, rfl⟩
    simp [updateTrajectoryDisplay, htc]

theorem restoreFromTraj_result (S : Store) (s : AppState) (i : Int) (b : String)
    (htraj : S.getItem KEY_SHOW_TRAJECTORY = some (JVal.s b)) (hb : b ≠ "")
    (hidx : S.getItem KEY_LAYER_INDEX = some (JVal.num i))
    (hi0 : 0 ≤ i) (hi1 : i < (s.geojsonLayers.length : Int)) :
    RestoreRes (restoreFromTraj S s) S s.currentThresholdFilter i s.displayOptions
      (decide (b = "true")) s.selection.uid s.geojsonLayers := by
  simp only [restoreFromTraj, htraj]
  rw [if_pos hb]
  obtain ⟨s2, v, hp, h1, h2, h3, h4, h5, h6⟩ :=
    updateTrajectoryDisplay_result { s with showTrajectoryChecked := b = "true" } S
  rw [hp]
  dsimp only
  have hidx2 : (S.setItem KEY_SHOW_TRAJECTORY (JVal.s v)).getItem KEY_LAYER_INDEX =
      some (JVal.num i) := by
    rw [getItem_setItem, if_neg (by decide), hidx]
  have hi1' : i < (s2.geojsonLayers.length : Int) := by rw [h6]; exact hi1
  obtain ⟨r1, r2, r3, r4, r5, r6, r7, r8, r9⟩ :=
    restoreFromIndex_result (S.setItem KEY_SHOW_TRAJECTORY (JVal.s v)) s2 i hidx2 hi0 hi1'
  refine ⟨r1.trans h1, r2, r3.trans h3, r4.trans h4, r5.trans h5, r6.trans h6, ?_, ?_, ?_⟩
  · rw [r7, getItem_setItem, if_neg (by decide)]
  · rw [r8, getItem_setItem, if_neg (by decide)]
  · intro hu
    obtain ⟨step, hstep, hbl⟩ := r9 (h5.trans hu)
    refine ⟨step, ?_, ?_⟩
    · exact (congrArg (fun l => getAt l i) h6).symm.trans hstep
    · exact hbl.trans (by rw [h1])

theorem restoreFromThreshold_result (S : Store) (s : AppState) (i : Int) (t b : String)
    (hthr : S.getItem KEY_THRESHOLD = some (JVal.s t)) (ht : t ≠ "")
    (htraj : S.getItem KEY_SHOW_TRAJECTORY = some (JVal.s b)) (hb : b ≠ "")
    (hidx : S.getItem KEY_LAYER_INDEX = some (JVal.num i))
    (hi0 : 0 ≤ i) (hi1 : i < (s.geojsonLayers.length : Int)) :
    RestoreRes (restoreFromThreshold S s) S t i s.displayOptions
      (decide (b = "true")) s.selection.uid s.geojsonLayers := by
  simp only [restoreFromThreshold, hthr]
  rw [if_pos ht]
  obtain ⟨bl, tl, hub⟩ := updateBoundaryLayer_shape { s with currentThresholdFilter := t }
  rw [hub]
  exact restoreFromTraj_result S _ i b htraj hb hidx hi0 hi1

theorem restoreUIState_result (S : Store) (s : AppState) (i : Int) (t b : String)
    (m : List (String × Bool))
    (hopts : S.getItem KEY_DISPLAY_OPTIONS = some (JVal.opts m))
    (hthr : S.getItem KEY_THRESHOLD = some (JVal.s t)) (ht : t ≠ "")
    (htraj : S.getItem KEY_SHOW_TRAJECTORY = some (JVal.s b)) (hb : b ≠ "")
    (hidx : S.getItem KEY_LAYER_INDEX = some (JVal.num i))
    (hi0 : 0 ≤ i) (hi1 : i < (s.geojsonLayers.length : Int)) :
    RestoreRes (restoreUIState S s) S t i (applyStoredOpts m s.displayOptions)
      (decide (b = "true")) s.selection.uid s.geojsonLayers := by
  simp only [restoreUIState, hopts]
  exact restoreFromThreshold_result S _ i t b hthr ht htraj hb hidx hi0 hi1

theorem applyStoredOpts_defaults (m : List (String × Bool))
    (h : m.map Prod.fst = DISPLAY_KEYS) :
    applyStoredOpts m (DISPLAY_KEYS.map fun k => (k, false)) = m := by
  obtain _ | ⟨⟨k1, b1⟩, m⟩ := m
  · simp [DISPLAY_KEYS] at h
  obtain _ | ⟨⟨k2, b2⟩, m⟩ := m
  · simp [DISPLAY_KEYS] at h
  obtain _ | ⟨⟨k3, b3⟩, m⟩ := m
  · simp [DISPLAY_KEYS] at h
  obtain _ | ⟨⟨k4, b4⟩, m⟩ := m
  · simp [DISPLAY_KEYS] at h
  obtain _ | ⟨⟨k5, b5⟩, m⟩ := m
  · simp [DISPLAY_KEYS] at h
  obtain _ | ⟨⟨k6, b6⟩, m⟩ := m
  · simp [DISPLAY_KEYS] at h
  obtain _ | ⟨⟨k7, b7⟩, m⟩ := m
  · simp [DISPLAY_KEYS] at h
    obtain ⟨rfl, rfl, rfl, rfl, rfl, rfl⟩ := h
    rfl
  · simp [DISPLAY_KEYS] at h

/-! ## `saveState` with the auto-reload flag: what the store holds -/

theorem saveState_auto_getItems (st : AppState) (store : Store) (now : Int)
    (ht : st.currentThresholdFilter ≠ "") :
    (saveState st store now true).getItem KEY_AUTO_RELOAD = some (JVal.num now) ∧
    (saveState st store now true).getItem KEY_DISPLAY_OPTIONS =
      some (JVal.opts st.displayOptions) ∧
    (saveState st store now true).getItem KEY_THRESHOLD =
      some (JVal.s st.currentThresholdFilter) ∧
    (saveState st store now true).getItem KEY_LAYER_INDEX = some (JVal.num st.currentIndex) ∧
    (saveState st store now true).getItem KEY_SHOW_TRAJECTORY =
      some (JVal.s (if st.showTrajectoryChecked then "true" else "false")) := by
  cases hsel : st.selection.uid with
  | none =>
    simp +decide [saveState, hsel, ht, getItem_setItem, getItem_removeItem,
      KEY_AUTO_RELOAD, KEY_MAP_VIEW, KEY_SELECTED_UID, KEY_DISPLAY_OPTIONS, KEY_THRESHOLD,
      KEY_LAYER_INDEX, KEY_SHOW_TRAJECTORY, KEY_LAST_INTERACTION, KEY_MANUAL_RESET]
  | some u =>
    by_cases hu : u ≠ "" <;>
      simp +decide [saveState, hsel, hu, ht, getItem_setItem, getItem_removeItem,
        KEY_AUTO_RELOAD, KEY_MAP_VIEW, KEY_SELECTED_UID, KEY_DISPLAY_OPTIONS, KEY_THRESHOLD,
        KEY_LAYER_INDEX, KEY_SHOW_TRAJECTORY, KEY_LAST_INTERACTION, KEY_MANUAL_RESET]

theorem checkIfAutoReload_of_stamp (S : Store) (now t : Int)
    (h : S.getItem KEY_AUTO_RELOAD = some (JVal.num t))
    (hw : now - t < AUTO_RELOAD_TIMEOUT) : checkIfAutoReload S now = true := by
  simp [checkIfAutoReload, h, jsParseIntJ, hw]

theorem applySavedUid_none (p : AppState × Store)
    (h : p.2.getItem KEY_SELECTED_UID = none) : applySavedUid p = p := by
  simp [applySavedUid, h]

/-! ## Process start: the three reload classes -/

theorem startApp_manual_defaults (store0 : Store) (now : Int) (layers : List TimeStep)
    (hAuto : checkIfAutoReload store0 now = false)
    (hMR : store0.getItem KEY_MANUAL_RESET ≠ some (JVal.s "true"))
    (hLen : 0 < layers.length) :
    (startApp store0 now layers).1.selection = ⟨none, none, none⟩ ∧
    (startApp store0 now layers).1.currentThresholdFilter = DEFAULT_THRESHOLD ∧
    (startApp store0 now layers).1.currentIndex = (layers.length : Int) - 1 ∧
    (startApp store0 now layers).1.displayOptions = DISPLAY_KEYS.map (fun k => (k, false)) ∧
    ∀ la ln z : ℚ, store0.getItem KEY_MAP_VIEW = some (JVal.viewport la ln z) →
      (startApp store0 now layers).1.mapLat = la ∧
      (startApp store0 now layers).1.mapLng = ln ∧
      (startApp store0 now layers).1.mapZoom = z := by
  have h0 : (0 : Int) ≤ (layers.length : Int) - 1 := by omega
  have h1 : ((layers.length : Int) - 1) < ((initialState layers).geojsonLayers.length : Int) :=
    (by omega : ((layers.length : Int) - 1) < (layers.length : Int))
  obtain ⟨st1, hok, hFr, hci, htv, hsel⟩ :=
    showLayerAtIndex_inBounds (initialState layers) ((layers.length : Int) - 1) h0 h1
  obtain ⟨hg, hdo, hth, hpl, hpi, hat, htc2, hstc, hla, hln, hz⟩ := hFr
  have hload := loadState_manual store0 now hAuto hMR
  have hsel1 := clearUI2_selected store0
  have hmv1 := clearUI2_mapview store0
  have hsa : startApp store0 now layers =
      (refreshAfterRestore (restoreMapViewState
        (((clearUIState store0).removeItem KEY_AUTO_RELOAD).removeItem KEY_MANUAL_RESET)
        { st1 with playing := false }),
       ((clearUIState store0).removeItem KEY_AUTO_RELOAD).removeItem KEY_MANUAL_RESET) := by
    simp only [startApp, hload, hok, applySavedUid, Bool.false_eq_true, if_false]
    rw [hsel1]
  obtain ⟨f1, f2, f3, f4, f5⟩ := startFinish_ui
    (((clearUIState store0).removeItem KEY_AUTO_RELOAD).removeItem KEY_MANUAL_RESET)
    { st1 with playing := false }
  have hun : ({ st1 with playing := false } : AppState).selection.uid = none := hsel
  have hct : ({ st1 with playing := false } : AppState).currentThresholdFilter =
      DEFAULT_THRESHOLD := hth
  have hdo' : ({ st1 with playing := false } : AppState).displayOptions =
      DISPLAY_KEYS.map (fun k => (k, false)) := hdo
  refine ⟨?_, ?_, ?_, ?_, ?_⟩
  · rw [hsa]
    exact f5.trans (by rw [hun])
  · rw [hsa]
    exact f1.trans hct
  · rw [hsa]
    exact f2.trans hci
  · rw [hsa]
    exact f3.trans hdo'
  · intro la ln z hv
    have hv1 : (((clearUIState store0).removeItem KEY_AUTO_RELOAD).removeItem
        KEY_MANUAL_RESET).getItem KEY_MAP_VIEW = some (JVal.viewport la ln z) :=
      hmv1.trans hv
    rw [hsa]
    exact startFinish_view _ { st1 with playing := false } la ln z hv1

theorem startApp_reset_purges (store0 : Store) (now : Int) (layers : List TimeStep)
    (hAuto : checkIfAutoReload store0 now = false)
    (hMR : store0.getItem KEY_MANUAL_RESET = some (JVal.s "true"))
    (hLen : 0 < layers.length) :
    (startApp store0 now layers).1.selection = ⟨none, none, none⟩ ∧
    (startApp store0 now layers).1.currentThresholdFilter = DEFAULT_THRESHOLD ∧
    (startApp store0 now layers).1.currentIndex = (layers.length : Int) - 1 ∧
    (startApp store0 now layers).1.displayOptions = DISPLAY_KEYS.map (fun k => (k, false)) ∧
    (startApp store0 now layers).1.mapLat = defaultLat ∧
    (startApp store0 now layers).1.mapLng = defaultLng ∧
    (startApp store0 now layers).1.mapZoom = defaultZoom ∧
    (startApp store0 now layers).2.getItem KEY_MAP_VIEW = none := by
  have h0 : (0 : Int) ≤ (layers.length : Int) - 1 := by omega
  have h1 : ((layers.length : Int) - 1) < ((initialState layers).geojsonLayers.length : Int) :=
    (by omega : ((layers.length : Int) - 1) < (layers.length : Int))
  obtain ⟨st1, hok, hFr, hci, htv, hsel⟩ :=
    showLayerAtIndex_inBounds (initialState layers) ((layers.length : Int) - 1) h0 h1
  obtain ⟨hg, hdo, hth, hpl, hpi, hat, htc2, hstc, hla, hln, hz⟩ := hFr
  have hload := loadState_reset store0 now hAuto hMR
  have hsel1 := clearAll2_selected store0
  have hmv1 := clearAll2_mapview store0
  have hsa : startApp store0 now layers =
      (refreshAfterRestore (restoreMapViewState
        (((clearAllState store0).removeItem KEY_AUTO_RELOAD).removeItem KEY_MANUAL_RESET)
        { st1 with playing := false }),
       ((clearAllState store0).removeItem KEY_AUTO_RELOAD).removeItem KEY_MANUAL_RESET) := by
    simp only [startApp, hload, hok, applySavedUid, Bool.false_eq_true, if_false]
    rw [hsel1]
  obtain ⟨f1, f2, f3, f4, f5⟩ := startFinish_ui
    (((clearAllState store0).removeItem KEY_AUTO_RELOAD).removeItem KEY_MANUAL_RESET)
    { st1 with playing := false }
  obtain ⟨v1, v2, v3⟩ := startFinish_view_none
    (((clearAllState store0).removeItem KEY_AUTO_RELOAD).removeItem KEY_MANUAL_RESET)
    { st1 with playing := false } hmv1
  have hun : ({ st1 with playing := false } : AppState).selection.uid = none := hsel
  have hct : ({ st1 with playing := false } : AppState).currentThresholdFilter =
      DEFAULT_THRESHOLD := hth
  have hdo' : ({ st1 with playing := false } : AppState).displayOptions =
      DISPLAY_KEYS.map (fun k => (k, false)) := hdo
  have hla' : ({ st1 with playing := false } : AppState).mapLat = defaultLat := hla
  have hln' : ({ st1 with playing := false } : AppState).mapLng = defaultLng := hln
  have hz' : ({ st1 with playing := false } : AppState).mapZoom = defaultZoom := hz
  refine ⟨?_, ?_, ?_, ?_, ?_, ?_, ?_, ?_⟩
  · rw [hsa]
    exact f5.trans (by rw [hun])
  · rw [hsa]
    exact f1.trans hct
  · rw [hsa]
    exact f2.trans hci
  · rw [hsa]
    exact f3.trans hdo'
  · rw [hsa]
    exact v1.trans hla'
  · rw [hsa]
    exact v2.trans hln'
  · rw [hsa]
    exact v3.trans hz'
  · rw [hsa]
    exact hmv1

theorem startApp_auto_restores (store0 : Store) (now : Int) (layers : List TimeStep)
    (i : Int) (t b : String) (m : List (String × Bool))
    (hAuto : checkIfAutoReload store0 now = true)
    (hopts : store0.getItem KEY_DISPLAY_OPTIONS = some (JVal.opts m))
    (hkeys : m.map Prod.fst = DISPLAY_KEYS)
    (hthr : store0.getItem KEY_THRESHOLD = some (JVal.s t)) (ht : t ≠ "")
    (htraj : store0.getItem KEY_SHOW_TRAJECTORY = some (JVal.s b)) (hb : b ≠ "")
    (hidx : store0.getItem KEY_LAYER_INDEX = some (JVal.num i))
    (hi0 : 0 ≤ i) (hi1 : i < (layers.length : Int)) :
    (startApp store0 now layers).1.currentThresholdFilter = t ∧
    (startApp store0 now layers).1.currentIndex = i ∧
    (startApp store0 now layers).1.displayOptions = m ∧
    (startApp store0 now layers).1.showTrajectoryChecked = decide (b = "true") ∧
    (∀ la ln z : ℚ, store0.getItem KEY_MAP_VIEW = some (JVal.viewport la ln z) →
      (startApp store0 now layers).1.mapLat = la ∧
      (startApp store0 now layers).1.mapLng = ln ∧
      (startApp store0 now layers).1.mapZoom = z) ∧
    ∀ u : String, store0.getItem KEY_SELECTED_UID = some (JVal.s u) → u ≠ "" →
      ∀ step, getAt layers i = some step →
      ((renderedOf t none step).filter (scanHit u t) ≠ [] →
        (startApp store0 now layers).1.selection.uid = some u) ∧
      ((renderedOf t none step).filter (scanHit u t) = [] →
        (startApp store0 now layers).1.selection.uid = none) := by
  have h0 : (0 : Int) ≤ (layers.length : Int) - 1 := by omega
  have h1 : ((layers.length : Int) - 1) < ((initialState layers).geojsonLayers.length : Int) :=
    (by omega : ((layers.length : Int) - 1) < (layers.length : Int))
  obtain ⟨st1, hok, hFr, hci, htv, hsel⟩ :=
    showLayerAtIndex_inBounds (initialState layers) ((layers.length : Int) - 1) h0 h1
  obtain ⟨hg, hdo, hth, hpl, hpi, hat, htc2, hstc, hla, hln, hz⟩ := hFr
  have hload := loadState_auto store0 now hAuto
  have e1 : ((store0.removeItem KEY_AUTO_RELOAD).removeItem KEY_MANUAL_RESET).getItem
      KEY_DISPLAY_OPTIONS = some (JVal.opts m) := by
    rw [rm2_getItem _ _ (by decide) (by decide)]
    exact hopts
  have e2 : ((store0.removeItem KEY_AUTO_RELOAD).removeItem KEY_MANUAL_RESET).getItem
      KEY_THRESHOLD = some (JVal.s t) := by
    rw [rm2_getItem _ _ (by decide) (by decide)]
    exact hthr
  have e3 : ((store0.removeItem KEY_AUTO_RELOAD).removeItem KEY_MANUAL_RESET).getItem
      KEY_SHOW_TRAJECTORY = some (JVal.s b) := by
    rw [rm2_getItem _ _ (by decide) (by decide)]
    exact htraj
  have e4 : ((store0.removeItem KEY_AUTO_RELOAD).removeItem KEY_MANUAL_RESET).getItem
      KEY_LAYER_INDEX = some (JVal.num i) := by
    rw [rm2_getItem _ _ (by decide) (by decide)]
    exact hidx
  have e5 : ((store0.removeItem KEY_AUTO_RELOAD).removeItem KEY_MANUAL_RESET).getItem
      KEY_MAP_VIEW = store0.getItem KEY_MAP_VIEW :=
    rm2_getItem _ _ (by decide) (by decide)
  have hi1' : i < (({ st1 with playing := false } : AppState).geojsonLayers.length : Int) := by
    show i < ((st1.geojsonLayers.length : Nat) : Int)
    rw [hg]
    exact hi1
  obtain ⟨r1, r2, r3, r4, r5, r6, r7, r8, r9⟩ := restoreUIState_result
    ((store0.removeItem KEY_AUTO_RELOAD).removeItem KEY_MANUAL_RESET)
    { st1 with playing := false } i t b m e1 e2 ht e3 hb e4 hi0 hi1'
  obtain ⟨a1, a2, a3, a4, a5, a6⟩ := applySavedUid_fields
    (restoreUIState ((store0.removeItem KEY_AUTO_RELOAD).removeItem KEY_MANUAL_RESET)
      { st1 with playing := false })
  obtain ⟨f1, f2, f3, f4, f5⟩ := startFinish_ui
    (applySavedUid (restoreUIState ((store0.removeItem KEY_AUTO_RELOAD).removeItem
      KEY_MANUAL_RESET) { st1 with playing := false })).2
    (applySavedUid (restoreUIState ((store0.removeItem KEY_AUTO_RELOAD).removeItem
      KEY_MANUAL_RESET) { st1 with playing := false })).1
  have hsa : startApp store0 now layers =
      (refreshAfterRestore (restoreMapViewState
        (applySavedUid (restoreUIState ((store0.removeItem KEY_AUTO_RELOAD).removeItem
          KEY_MANUAL_RESET) { st1 with playing := false })).2
        (applySavedUid (restoreUIState ((store0.removeItem KEY_AUTO_RELOAD).removeItem
          KEY_MANUAL_RESET) { st1 with playing := false })).1),
       (applySavedUid (restoreUIState ((store0.removeItem KEY_AUTO_RELOAD).removeItem
          KEY_MANUAL_RESET) { st1 with playing := false })).2) := by
    simp only [startApp, hload, hok, eq_self_iff_true, if_true]
  have hopts2 : applyStoredOpts m ({ st1 with playing := false } : AppState).displayOptions =
      m := by
    show applyStoredOpts m st1.displayOptions = m
    rw [hdo]
    exact applyStoredOpts_defaults m hkeys
  refine ⟨?_, ?_, ?_, ?_, ?_, ?_⟩
  · rw [hsa]
    exact f1.trans (a2.trans r1)
  · rw [hsa]
    exact f2.trans (a1.trans r2)
  · rw [hsa]
    exact f3.trans (a3.trans (r3.trans hopts2))
  · rw [hsa]
    exact f4.trans (a4.trans r4)
  · intro la ln z hv
    have hmv : (applySavedUid (restoreUIState ((store0.removeItem KEY_AUTO_RELOAD).removeItem
        KEY_MANUAL_RESET) { st1 with playing := false })).2.getItem KEY_MAP_VIEW =
        some (JVal.viewport la ln z) := by
      rw [a6, r7, e5]
      exact hv
    rw [hsa]
    exact startFinish_view _ _ la ln z hmv
  · intro u hsu hu step hstep
    have e6 : ((store0.removeItem KEY_AUTO_RELOAD).removeItem KEY_MANUAL_RESET).getItem
        KEY_SELECTED_UID = some (JVal.s u) := by
      rw [rm2_getItem _ _ (by decide) (by decide)]
      exact hsu
    have hA := applySavedUid_sel
      (restoreUIState ((store0.removeItem KEY_AUTO_RELOAD).removeItem KEY_MANUAL_RESET)
        { st1 with playing := false }) u (r8.trans e6) hu
    have hu0 : ({ st1 with playing := false } : AppState).selection.uid = none := hsel
    obtain ⟨step', hstep', hbl⟩ := r9 hu0
    have hg' : ({ st1 with playing := false } : AppState).geojsonLayers = layers := hg
    have hstep'' : getAt layers i = some step' := by
      rw [← hg']
      exact hstep'
    have hse : step' = step := Option.some.inj (hstep''.symm.trans hstep)
    subst hse
    have p2uid : (restoreUIState ((store0.removeItem KEY_AUTO_RELOAD).removeItem
        KEY_MANUAL_RESET) { st1 with playing := false }).1.selection.uid = none :=
      r5.trans hu0
    have hfu : (startApp store0 now layers).1.selection.uid =
        (selectPolygonByUid (restoreUIState ((store0.removeItem KEY_AUTO_RELOAD).removeItem
          KEY_MANUAL_RESET) { st1 with playing := false }).1 u).selection.uid := by
      rw [hsa]
      refine (congrArg Selection.uid f5).trans ?_
      show (applySavedUid (restoreUIState ((store0.removeItem KEY_AUTO_RELOAD).removeItem
        KEY_MANUAL_RESET) { st1 with playing := false })).1.selection.uid = _
      rw [hA]
    constructor
    · intro hne
      rw [hfu]
      refine selectPolygonByUid_hit_uid _ u (renderedOf t none step') hbl ?_
      rw [r1]
      exact hne
    · intro hnil
      rw [hfu]
      refine (selectPolygonByUid_miss_uid _ u (renderedOf t none step') hbl ?_).trans p2uid
      rw [r1]
      exact hnil

/-! ## Claim C3: out-of-range index -/

/-- C3: for every index `j` with `j < 0` or `j ≥ length(TimeSteps)`,
`showTimeStepAt(j)` (`showLayerAtIndex`) is a no-op: it takes no
action, returns silently, and leaves the entire state — including
`currentIndex`, the selection and the rendered layers — unchanged. -/
theorem showTimeStepAt_out_of_range (st : AppState) (j : Int)
    (h : j < 0 ∨ (st.geojsonLayers.length : Int) ≤ j) :
    showLayerAtIndex st j = .ok st := by
  rw [showLayerAtIndex, if_pos h]

/-- Witness for C3 at the concrete out-of-range index 5 of a 2-element
catalog. -/
theorem showTimeStepAt_out_of_range_witness :
    ((5 : Int) < 0 ∨ ((c7State.geojsonLayers.length : Nat) : Int) ≤ 5) ∧
    showLayerAtIndex c7State 5 = .ok c7State := by
  have h : (5 : Int) < 0 ∨ ((c7State.geojsonLayers.length : Nat) : Int) ≤ 5 :=
    Or.inr (by simp [c7State, initialState])
  exact ⟨h, showTimeStepAt_out_of_range c7State 5 h⟩

/-! ## Claim C6: the threshold filter is a pure predicate -/

/-- C6: `passesThreshold` returns true exactly when
`parseFloat(feature.properties.threshold)` strictly equals
`parseFloat(currentThresholdFilter)` (NaN comparing unequal to
everything, and a missing property or null properties object parsing
to NaN); and changing the filter value (the radio-change handler
`updateThresholdFilter`) never mutates the stored Feature data.
Evaluating the predicate itself is a pure function of its arguments by
construction. -/
theorem thresholdFilter_pure (tf v : String) (f : Feature) (st : AppState) :
    passesThreshold tf f = eqNum (jsParseFloatOpt (f.prop "threshold")) (jsParseFloat tf) ∧
    (updateThresholdFilterF st v).geojsonLayers = st.geojsonLayers := by
  constructor
  · unfold passesThreshold jsParseFloatOpt Feature.prop
    cases hp : f.props with
    | none => cases jsParseFloat tf <;> rfl
    | some l =>
      cases hl : List.lookup "threshold" l with
      | none => simp only [hl]; cases jsParseFloat tf <;> rfl
      | some t => simp only [hl]
  · simp only [updateThresholdFilterF, updateBoundaryLayer, loadTrajectoryForCurrentLayer]
    repeat' split
    all_goals simp_all

/-! ## Claim C7: playback tick advances modulo the catalog length -/

/-- C7: while playing, each interval tick advances the time index to
`(currentIndex + 1) mod length(TimeSteps)` by invoking
`showTimeStepAt` on exactly that index (followed by the trajectory
reload when the checkbox is on); and, on the concrete 2-element
catalog started at index 0, the index is 1 after one tick and 0 after
a second tick. -/
theorem playbackTick_advances :
    (∀ st : AppState, 0 ≤ st.currentIndex →
      st.currentIndex < (st.geojsonLayers.length : Int) →
      playbackTick st = (showLayerAtIndex st
          ((st.currentIndex + 1) % (st.geojsonLayers.length : Int))).map
          (fun s => if st.showTrajectoryChecked then loadTrajectoryForCurrentLayer s else s) ∧
      ∃ st', playbackTick st = .ok st' ∧
        st'.currentIndex = (st.currentIndex + 1) % (st.geojsonLayers.length : Int)) ∧
    (∃ s1 s2, playbackTick c7State = .ok s1 ∧ s1.currentIndex = 1 ∧
      playbackTick s1 = .ok s2 ∧ s2.currentIndex = 0) := by
  constructor
  · intro st h0 h1
    have hlen : 0 < (st.geojsonLayers.length : Int) := by omega
    have hnext : (if (st.geojsonLayers.length : Int) ≤ st.currentIndex + 1 then 0
        else st.currentIndex + 1) =
        (st.currentIndex + 1) % (st.geojsonLayers.length : Int) := by
      by_cases hc : (st.geojsonLayers.length : Int) ≤ st.currentIndex + 1
      · rw [if_pos hc]
        have heq : st.currentIndex + 1 = (st.geojsonLayers.length : Int) := by omega
        rw [heq, Int.emod_self]
      · rw [if_neg hc, Int.emod_eq_of_lt (by omega) (by omega)]
    constructor
    · simp only [playbackTick]
      rw [hnext]
    · obtain ⟨st', hok, _, hci, _, _⟩ := showLayerAtIndex_inBounds st
        ((st.currentIndex + 1) % (st.geojsonLayers.length : Int))
        (Int.emod_nonneg _ (by omega)) (Int.emod_lt_of_pos _ hlen)
      refine ⟨if st.showTrajectoryChecked then loadTrajectoryForCurrentLayer st' else st', ?_, ?_⟩
      · simp only [playbackTick]
        rw [hnext, hok]
        rfl
      · cases htr : st.showTrajectoryChecked with
        | false => simpa [htr] using hci
        | true =>
          obtain ⟨tl, htl⟩ := loadTrajectory_shape st'
          simp [htr, htl, hci]
  · exact ⟨_, _, rfl, by decide, rfl, by decide⟩

/-- Witness for C7: the general tick law applied to the concrete
2-element catalog at index 0. -/
theorem playbackTick_advances_witness :
    ((0 : Int) ≤ c7State.currentIndex ∧
     c7State.currentIndex < (c7State.geojsonLayers.length : Int)) ∧
    (playbackTick c7State = (showLayerAtIndex c7State
        ((c7State.currentIndex + 1) % (c7State.geojsonLayers.length : Int))).map
        (fun s => if c7State.showTrajectoryChecked then loadTrajectoryForCurrentLayer s
          else s) ∧
     ∃ st', playbackTick c7State = .ok st' ∧
       st'.currentIndex = (c7State.currentIndex + 1) % (c7State.geojsonLayers.length : Int)) :=
  ⟨⟨by decide, by decide⟩, playbackTick_advances.1 c7State (by decide) (by decide)⟩

/-! ## Claim C8: timer lifecycle lemmas -/

theorem timerInv_of_active_nil (st : AppState)
    (h3 : ∀ h, st.playInterval = some h → h ≤ st.timerCtr)
    (h : st.activeTimers = []) : timerInv st :=
  ⟨by simp [h], by simp [h], h3⟩

theorem active_cleared (st : AppState) (h : timerInv st) :
    (clearIntervalF st st.playInterval).activeTimers = [] := by
  cases hpi : st.playInterval with
  | none =>
    simp only [clearIntervalF]
    cases hA : st.activeTimers with
    | nil => rfl
    | cons p r =>
      exfalso
      have hp := h.2.1 p (hA ▸ List.mem_cons_self p r)
      rw [hpi] at hp
      cases hp
  | some hd =>
    simp only [clearIntervalF]
    rw [List.filter_eq_nil_iff]
    intro p hp
    have hh := h.2.1 p hp
    rw [hpi] at hh
    simp [Option.some.inj hh]

theorem step1_eq (st : AppState) (h : timerInv st) :
    (if st.playInterval.isSome then clearIntervalF st st.playInterval else st) =
      { st with activeTimers := [] } := by
  by_cases hpi : st.playInterval.isSome
  · rw [if_pos hpi]
    have ha := active_cleared st h
    cases hv : st.playInterval with
    | none => rw [hv] at hpi; cases hpi
    | some hd =>
      rw [hv] at ha
      simp only [clearIntervalF] at ha ⊢
      rw [ha, hv]
  · rw [if_neg hpi]
    have hA : st.activeTimers = [] := by
      cases hv : st.playInterval with
      | some hd => rw [hv] at hpi; exact absurd rfl hpi
      | none =>
        cases hAc : st.activeTimers with
        | nil => rfl
        | cons p r =>
          exfalso
          have hp := h.2.1 p (hAc ▸ List.mem_cons_self p r)
          rw [hv] at hp
          cases hp
    rw [← hA]

theorem updatePlayInterval_eq (st : AppState) (v : String) (h : timerInv st) :
    updatePlayInterval st v =
      if st.playing then
        { st with
          activeTimers := [(st.timerCtr + 1, (jsParseFloat v).map (· * 1000))],
          timerCtr := st.timerCtr + 1, playInterval := some (st.timerCtr + 1) }
      else { st with activeTimers := [] } := by
  rw [updatePlayInterval, step1_eq st h]
  by_cases hp : st.playing
  · simp [hp, setIntervalF]
  · simp [hp]

theorem timerInv_update (st : AppState) (v : String) (h : timerInv st) :
    timerInv (updatePlayInterval st v) := by
  rw [updatePlayInterval_eq st v h]
  by_cases hp : st.playing
  · rw [if_pos hp]
    refine ⟨by simp, ?_, ?_⟩
    · intro p hp2
      simp only [List.mem_singleton] at hp2
      subst hp2
      rfl
    · intro hd hhd
      have heq : hd = st.timerCtr + 1 := (Option.some.inj hhd).symm
      simp [heq]
  · rw [if_neg hp]
    exact timerInv_of_active_nil _ h.2.2 rfl

theorem clearIntervalF_proj (st : AppState) (o : Option Nat) :
    (clearIntervalF st o).playInterval = st.playInterval ∧
    (clearIntervalF st o).timerCtr = st.timerCtr := by
  cases o <;> simp [clearIntervalF]

theorem timerInv_toggle (st : AppState) (v : String) (h : timerInv st) :
    timerInv (togglePlayPause st v) := by
  unfold togglePlayPause
  by_cases he : st.geojsonLayers.isEmpty
  · rw [if_pos he]; exact h
  · rw [if_neg he]
    have h2 : timerInv { st with playing := !st.playing } :=
      ⟨h.1, fun p hp => h.2.1 p hp, fun hd hhd => h.2.2 hd hhd⟩
    by_cases hp : ({ st with playing := !st.playing } : AppState).playing
    · rw [if_pos hp]
      exact timerInv_update _ v h2
    · rw [if_neg hp]
      refine timerInv_of_active_nil _ ?_ (active_cleared _ h2)
      intro hd hhd
      rw [(clearIntervalF_proj _ _).1] at hhd
      rw [(clearIntervalF_proj _ _).2]
      exact h.2.2 hd hhd

/-- C8: changing the playback speed while playing cancels the existing
timer and creates exactly one new interval with the new period
(`parseFloat(speed) * 1000` ms) and a fresh handle distinct from the
old one, without touching `currentIndex`; the timer invariant — at
most one live interval, and only the one `playInterval` names — holds
initially and is preserved by every sequence of play/pause and
speed-change operations, so no reachable state ever stacks two
intervals. -/
theorem playback_single_interval :
    (∀ (st : AppState) (v : String), timerInv st →
      timerInv (updatePlayInterval st v) ∧
      (updatePlayInterval st v).currentIndex = st.currentIndex) ∧
    (∀ (st : AppState) (v : String), timerInv st → st.playing = true →
      (updatePlayInterval st v).activeTimers =
        [(st.timerCtr + 1, (jsParseFloat v).map (· * 1000))] ∧
      ∀ h, st.playInterval = some h → h ≠ st.timerCtr + 1) ∧
    (∀ layers : List TimeStep, timerInv (initialState layers)) ∧
    (∀ (ops : List PlayerOp) (st0 : AppState), timerInv st0 →
      timerInv (ops.foldl applyPlayerOp st0)) := by
  refine ⟨?_, ?_, ?_, ?_⟩
  · intro st v h
    refine ⟨timerInv_update st v h, ?_⟩
    rw [updatePlayInterval_eq st v h]
    by_cases hp : st.playing <;> simp [hp]
  · intro st v h hp
    constructor
    · rw [updatePlayInterval_eq st v h, if_pos hp]
    · intro hd hhd
      have hle : hd ≤ st.timerCtr := h.2.2 hd hhd
      omega
  · intro layers
    exact timerInv_of_active_nil _ (by intro hd hhd; cases hhd) rfl
  · intro ops
    induction ops with
    | nil => intro st0 h; exact h
    | cons op rest ih =>
      intro st0 h
      rw [List.foldl_cons]
      refine ih _ ?_
      cases op with
      | toggle v => exact timerInv_toggle st0 v h
      | speedChange v => exact timerInv_update st0 v h

/-- Witness for C8 on the concrete 2-element catalog: the invariant
holds initially and after a speed change, the index is untouched, a
speed change while playing leaves exactly the one new timer, and a
concrete operation sequence preserves the invariant. -/
theorem playback_single_interval_witness :
    timerInv c7State ∧
    timerInv (updatePlayInterval c7State "2") ∧
    (updatePlayInterval c7State "2").currentIndex = c7State.currentIndex ∧
    (updatePlayInterval { c7State with playing := true } "2").activeTimers =
      [({ c7State with playing := true }.timerCtr + 1,
        (jsParseFloat "2").map (· * 1000))] ∧
    timerInv ([PlayerOp.toggle "1", PlayerOp.speedChange "3",
      PlayerOp.speedChange "0.5"].foldl applyPlayerOp c7State) := by
  have hinv : timerInv c7State := playback_single_interval.2.2.1 [stepA, stepB]
  have hinvP : timerInv { c7State with playing := true } := by
    refine ⟨by simp [c7State, initialState], ?_, ?_⟩
    · intro p hp
      simp [c7State, initialState] at hp
    · intro hd hhd
      simp [c7State, initialState] at hhd
  exact ⟨hinv, (playback_single_interval.1 c7State "2" hinv).1,
    (playback_single_interval.1 c7State "2" hinv).2,
    (playback_single_interval.2.1 _ "2" hinvP rfl).1,
    playback_single_interval.2.2.2 _ c7State hinv⟩

/-! ## Claim C1: selection-state invariant -/

theorem selInv_none (u : Option String) : SelInv ⟨none, none, u⟩ :=
  ⟨fun h => absurd rfl h, fun h => absurd rfl h, fun _ hg => by cases hg⟩

theorem selInv_pick (f : Feature) (l : RenderedLayer) (hf : f.uid ≠ none) :
    SelInv ⟨some f, some l, f.uid⟩ :=
  ⟨fun _ => by simp, fun _ => hf, fun g hg => by cases hg; rfl⟩

theorem restoreSelection_selection (uid : String) (st st' : AppState)
    (h : restoreSelection uid st = .ok st') :
    st'.selection = ⟨none, none, st.selection.uid⟩ ∨
    ∃ l, scanHit uid st.currentThresholdFilter l = true ∧
      st'.selection = ⟨some l.feature, some { l with style := PolyStyle.selected },
        st.selection.uid⟩ := by
  unfold restoreSelection at h
  cases hbl : st.currentBoundaryLayer with
  | none => rw [hbl] at h; exact absurd h (by simp)
  | some ls =>
    rw [hbl] at h
    dsimp only at h
    obtain ⟨huid, hcase⟩ := scanFold_sel uid st.currentThresholdFilter ls st false
    by_cases hb : (ls.foldl (scanStep uid st.currentThresholdFilter) (st, false)).2
    · rw [if_pos hb] at h
      have hst : st' = (ls.foldl (scanStep uid st.currentThresholdFilter) (st, false)).1 :=
        (Except.ok.inj h).symm
      rcases hcase with ⟨hfb, _, _⟩ | ⟨l, hhit, hf2, hl2⟩
      · rw [hb] at hfb; cases hfb
      · right
        refine ⟨l, hhit, ?_⟩
        cases hS : st'.selection with
        | mk a b c =>
          rw [hst] at hS
          have e1 := hf2
          have e2 := hl2
          have e3 := huid
          rw [hS] at e1 e2 e3
          simp only at e1 e2 e3
          rw [e1, e2, e3]
    · rw [if_neg hb] at h
      have hst := (Except.ok.inj h).symm
      left
      rw [hst]
      simp [huid]

theorem showLayerAtIndex_selection (st st' : AppState) (j : Int) (h0 : 0 ≤ j)
    (h1 : j < (st.geojsonLayers.length : Int))
    (hok : showLayerAtIndex st j = .ok st') :
    st'.selection = ⟨none, none, st.selection.uid⟩ ∨
    ∃ u l, st.selection.uid = some u ∧
      scanHit u st.currentThresholdFilter l = true ∧
      st'.selection = ⟨some l.feature, some { l with style := PolyStyle.selected }, some u⟩ := by
  obtain ⟨step, hstep⟩ := getAt_inBounds st.geojsonLayers j h0 h1
  have hcond : ¬ (j < 0 ∨ (st.geojsonLayers.length : Int) ≤ j) := by omega
  rw [showLayerAtIndex, if_neg hcond] at hok
  simp only [updateBoundaryLayer, Except.map, hstep] at hok
  cases hsel : st.selection.uid with
  | none =>
    rw [hsel] at hok
    dsimp only at hok
    have hst := (Except.ok.inj hok).symm
    obtain ⟨_, _, _, hS, _, _, _⟩ := showTail_fields st.showTrajectoryChecked
      { st with
        currentIndex := j, markers := [],
        currentBoundaryLayer := some (List.map
          (fun f => RenderedLayer.mk f (featureStyle none f))
          (List.filter (passesThreshold st.currentThresholdFilter) step.features)),
        currentTrajectoryLayer := none,
        selection := ⟨none, none, none⟩ }
    left
    rw [hst, hS]
  | some u =>
    rw [hsel] at hok
    dsimp only at hok
    revert hok
    split
    case h_1 e heq =>
      intro hok
      cases hok
    case h_2 a heq =>
      intro hok
      have hst := (Except.ok.inj hok).symm
      have hrs := restoreSelection_selection u _ a heq
      obtain ⟨_, _, _, hS, _, _, _⟩ := showTail_fields st.showTrajectoryChecked a
      rcases hrs with hleft | ⟨l, hhit, hright⟩
      · left
        rw [hst, hS, hleft]
      · right
        exact ⟨u, l, rfl, hhit, by rw [hst, hS, hright]⟩

theorem clickFeature_selection (st : AppState) (f : Feature) :
    (clickFeature st f).selection = ⟨none, none, none⟩ ∨
    (clickFeature st f).selection = ⟨some f, some ⟨f, PolyStyle.selected⟩, f.uid⟩ := by
  by_cases hq : st.selection.uid = f.uid
  · left
    simp [clickFeature, hq]
  · right
    simp only [clickFeature, hq, if_neg, updateChartF, collectTimeSeriesData]
    repeat' split
    all_goals simp_all

theorem clearSelection_selection (st : AppState) :
    (clearSelection st).selection = st.selection ∨
    (clearSelection st).selection = ⟨none, none, none⟩ := by
  unfold clearSelection
  cases st.selection.uid with
  | none => left; rfl
  | some u => right; rfl

theorem restoreSelection_nomatch (uid : String) (st st' : AppState)
    (ls : List RenderedLayer) (hbl : st.currentBoundaryLayer = some ls)
    (hnm : ∀ l ∈ ls, scanHit uid st.currentThresholdFilter l = false)
    (h : restoreSelection uid st = .ok st') :
    st' = { st with
      selection := ⟨none, none, st.selection.uid⟩, chartVisible := false } := by
  unfold restoreSelection at h
  rw [hbl] at h
  dsimp only at h
  rw [scanFold_nomatch uid st.currentThresholdFilter ls st false hnm] at h
  simp only [Bool.false_eq_true, if_false] at h
  exact (Except.ok.inj h).symm

theorem showLayer_uid_absent (st : AppState) (j : Int) (u : String) (step : TimeStep)
    (h0 : 0 ≤ j) (h1 : j < (st.geojsonLayers.length : Int))
    (hsel : st.selection.uid = some u)
    (hstep : getAt st.geojsonLayers j = some step)
    (habs : ∀ f ∈ step.features,
      ¬ (f.uid = some u ∧ passesThreshold st.currentThresholdFilter f = true)) :
    ∃ st', showLayerAtIndex st j = .ok st' ∧ st'.selection.uid = some u ∧
      st'.selection.feature = none ∧ st'.selection.layer = none ∧
      st'.chartVisible = false ∧ st'.currentIndex = j := by
  have hcond : ¬ (j < 0 ∨ (st.geojsonLayers.length : Int) ≤ j) := by omega
  rw [showLayerAtIndex, if_neg hcond]
  simp only [updateBoundaryLayer, Except.map, hstep, hsel]
  revert habs
  split
  case h_1 e heq =>
    intro _
    have := restoreSelection_err u _ e heq
    simp at this
  case h_2 a heq =>
    intro habs
    have hnm : ∀ l ∈ (step.features.filter
        (passesThreshold st.currentThresholdFilter)).map
        (fun f => RenderedLayer.mk f (featureStyle (some u) f)),
        scanHit u st.currentThresholdFilter l = false := by
      intro l hl
      obtain ⟨f, hf, hfl⟩ := List.mem_map.mp hl
      obtain ⟨hmem, hpass⟩ := List.mem_filter.mp hf
      subst hfl
      have := habs f hmem
      simp only [scanHit]
      by_cases hu : f.uid = some u
      · exact absurd ⟨hu, hpass⟩ this
      · simp [hu]
    have ha := restoreSelection_nomatch u _ a _ rfl
      (by simpa [scanHit] using hnm) heq
    subst ha
    obtain ⟨_, hci, _, hS, hcv, _, _⟩ := showTail_fields st.showTrajectoryChecked _
    refine ⟨_, rfl, ?_, ?_, ?_, ?_, ?_⟩
    · rw [hS]
    · rw [hS]
    · rw [hS]
    · rw [hcv]
    · rw [hci]

/-- C1: after every `showTimeStepAt(j)` with a valid index, after the
per-feature click handler (on features carrying the `uid` property the
data format requires), and after `clearSelection` (from a state already
satisfying it), the SelectionState satisfies: feature non-null implies
layer non-null, implies uid non-null, implies `feature.uid` equals
`uid`; and the converse need not hold — a reachable state has the uid
set while feature and layer are null. -/
theorem selection_invariant :
    (∀ (st st' : AppState) (j : Int), 0 ≤ j → j < (st.geojsonLayers.length : Int) →
      showLayerAtIndex st j = .ok st' → SelInv st'.selection) ∧
    (∀ (st : AppState) (f : Feature), f.uid ≠ none → SelInv (clickFeature st f).selection) ∧
    (∀ st : AppState, SelInv st.selection → SelInv (clearSelection st).selection) ∧
    (∃ st', showLayerAtIndex c2State 1 = .ok st' ∧
      st'.selection.uid ≠ none ∧ st'.selection.feature = none) := by
  refine ⟨?_, ?_, ?_, ?_⟩
  · intro st st' j h0 h1 hok
    rcases showLayerAtIndex_selection st st' j h0 h1 hok with hS | ⟨u, l, _, hhit, hS⟩
    · rw [hS]; exact selInv_none _
    · rw [hS]
      have huid : l.feature.uid = some u := by
        have := of_decide_eq_true (by simpa [scanHit] using hhit : decide _ = true)
        exact this.2.1
      have := selInv_pick l.feature { l with style := PolyStyle.selected } (by simp [huid])
      rwa [huid] at this
  · intro st f hf
    rcases clickFeature_selection st f with hS | hS
    · rw [hS]; exact selInv_none _
    · rw [hS]; exact selInv_pick f _ hf
  · intro st h
    rcases clearSelection_selection st with hS | hS
    · rw [hS]; exact h
    · rw [hS]; exact selInv_none _
  · obtain ⟨st', hok, huid, hft, _, _, _⟩ := showLayer_uid_absent c2State 1 "A" stepB
      (by decide) (by decide) rfl rfl (by decide)
    refine ⟨st', hok, ?_, hft⟩
    rw [huid]
    simp

/-- Witness for C1 on concrete inputs: a valid layer swap, a click on a
uid-carrying feature, and a clear from an invariant-satisfying state. -/
theorem selection_invariant_witness :
    (∃ st', showLayerAtIndex c2State 0 = .ok st' ∧ SelInv st'.selection) ∧
    SelInv (clickFeature c2State fA).selection ∧
    SelInv (clearSelection c2State).selection := by
  obtain ⟨st', hok, _, _, _, _⟩ := showLayerAtIndex_inBounds c2State 0 (by decide) (by decide)
  refine ⟨⟨st', hok, ?_⟩, ?_, ?_⟩
  · exact selection_invariant.1 c2State st' 0 (by decide) (by decide) hok
  · exact selection_invariant.2.1 c2State fA (by decide)
  · refine selection_invariant.2.2.1 c2State ?_
    have hS : c2State.selection = ⟨none, none, some "A"⟩ := rfl
    rw [hS]
    exact selInv_none _

/-! ## Claim C2: selected uid absent from the shown time-step -/

/-- C2: for every selected uid `u` and valid index `j` whose time-step
contains no feature with uid `u` passing the threshold filter,
`showTimeStepAt(j)` does not throw, preserves `SelectionState.uid`,
leaves `feature` and `layer` null, and hides the evolution chart. -/
theorem showTimeStepAt_selected_absent (st : AppState) (j : Int) (u : String)
    (step : TimeStep) (h0 : 0 ≤ j) (h1 : j < (st.geojsonLayers.length : Int))
    (hsel : st.selection.uid = some u)
    (hstep : getAt st.geojsonLayers j = some step)
    (habs : ∀ f ∈ step.features,
      ¬ (f.uid = some u ∧ passesThreshold st.currentThresholdFilter f = true)) :
    ∃ st', showLayerAtIndex st j = .ok st' ∧ st'.selection.uid = some u ∧
      st'.selection.feature = none ∧ st'.selection.layer = none ∧
      st'.chartVisible = false := by
  obtain ⟨st', hok, ha, hb, hc, hd, _⟩ :=
    showLayer_uid_absent st j u step h0 h1 hsel hstep habs
  exact ⟨st', hok, ha, hb, hc, hd⟩

/-- Witness for C2: entity `A` selected, navigating to the time-step
that only contains `B`. -/
theorem showTimeStepAt_selected_absent_witness :
    (0 ≤ (1 : Int)) ∧ ((1 : Int) < (c2State.geojsonLayers.length : Int)) ∧
    c2State.selection.uid = some "A" ∧
    getAt c2State.geojsonLayers 1 = some stepB ∧
    (∀ f ∈ stepB.features,
      ¬ (f.uid = some "A" ∧ passesThreshold c2State.currentThresholdFilter f = true)) ∧
    ∃ st', showLayerAtIndex c2State 1 = .ok st' ∧ st'.selection.uid = some "A" ∧
      st'.selection.feature = none ∧ st'.selection.layer = none ∧
      st'.chartVisible = false :=
  ⟨by decide, by decide, rfl, rfl, by decide,
    showTimeStepAt_selected_absent c2State 1 "A" stepB (by decide) (by decide) rfl rfl
      (by decide)⟩

/-! ## Claim C9: marker derivation -/

theorem joinLinesBr_ne_empty (x : String) (r : List String) :
    joinLinesBr (x :: r) ≠ "" := by
  intro h
  have hlen := congrArg String.length h
  simp only [joinLinesBr, String.length_append] at hlen
  have h4 : "<br>".length = 4 := rfl
  have hz : "".length = 0 := rfl
  omega

theorem enabledLabel_join (opts : List (String × Bool)) (f : Feature) :
    enabledLabel opts f = joinLinesBr (labelLines opts f) := by
  unfold enabledLabel labelLines
  suffices h : ∀ (ks : List String) (acc : String),
      ks.foldl (fun acc k =>
        if (opts.lookup k).getD false then
          match f.prop k with
          | some v => acc ++ k ++ ": " ++ v ++ "<br>"
          | none => acc
        else acc) acc
      = acc ++ joinLinesBr (ks.filterMap fun k =>
          if (opts.lookup k).getD false then
            match f.prop k with
            | some v => some (k ++ ": " ++ v)
            | none => none
          else none) by
    simpa using h DISPLAY_KEYS ""
  intro ks
  induction ks with
  | nil => intro acc; simp [joinLinesBr]
  | cons k rest ih =>
    intro acc
    simp only [List.foldl_cons, List.filterMap_cons]
    by_cases hk : (opts.lookup k).getD false
    · simp only [hk, if_true]
      cases hv : f.prop k with
      | none => simpa using ih acc
      | some v =>
        rw [ih]
        simp [joinLinesBr, String.append_assoc]
    · simp only [hk, if_false]
      exact ih acc

theorem buildMarkers_eq_claimed (opts : List (String × Bool)) (fs : List Feature)
    (h : ∀ f ∈ fs, ∀ rings, f.geom = some (Geometry.polygon rings) → rings ≠ []) :
    buildMarkers opts fs = fs.filterMap (claimedMarkerOf opts) := by
  induction fs with
  | nil => rfl
  | cons f rest ih =>
    have hrest := ih fun g hg => h g (List.mem_cons_of_mem f hg)
    have hf := h f (List.mem_cons_self f rest)
    simp only [buildMarkers, List.filterMap_cons]
    cases hg : f.geom with
    | none => simp only [centroidJs, hg, claimedMarkerOf, hrest]
    | some geo =>
      cases geo with
      | multiPolygon ps => simp only [centroidJs, hg, claimedMarkerOf, hrest]
      | otherGeom => simp only [centroidJs, hg, claimedMarkerOf, hrest]
      | polygon rings =>
        cases rings with
        | nil => exact absurd rfl (hf [] hg)
        | cons ring r2 =>
          simp only [centroidJs, hg, claimedMarkerOf]
          rw [enabledLabel_join]
          cases hlab : labelLines opts f with
          | nil => simp [joinLinesBr, hrest]
          | cons x xs =>
            rw [if_neg (joinLinesBr_ne_empty x xs)]
            simp [hrest]

/-- C9 counterexample: a MultiPolygon feature that passes the threshold
filter, with the `uid` display toggle enabled and the `uid` attribute
present — by the claim it should yield a marker at the centroid of the
first ring of its first sub-polygon — produces no marker at all
(`computeCentroid` returns null for any non-Polygon geometry). -/
theorem marker_multipolygon_counterexample :
    passesThreshold c9State.currentThresholdFilter fMP = true ∧
    List.lookup "uid" c9State.displayOptions = some true ∧
    fMP.prop "uid" = some "M" ∧
    fMP.geom = some (Geometry.multiPolygon [[[(0, 0), (2, 0), (0, 2)]]]) ∧
    getAt c9State.geojsonLayers c9State.currentIndex =
      some ⟨"20230101_0000.geojson", [fMP], none⟩ ∧
    updateMarkersList c9State = [] := by
  refine ⟨by with_unfolding_all decide, by decide, rfl, rfl, rfl, ?_⟩
  with_unfolding_all decide

/-- C9 amended: marker derivation produces, for each feature of the
current time-step passing the threshold filter (restricted to the
selected feature when one exists) whose geometry is a plain Polygon
(with a nonempty ring list — the well-formedness the GeoJSON format
guarantees), a marker at the mean of the first ring's vertex
coordinates labelled with every DisplayOptions-enabled attribute
present, as `"<key>: <value>"` lines; a feature with no enabled
attribute present yields no marker, and a MultiPolygon or other
non-Polygon geometry also yields no marker. -/
theorem marker_derivation_amended (st : AppState)
    (hgeom : ∀ step, getAt st.geojsonLayers st.currentIndex = some step →
      ∀ f ∈ step.features, ∀ rings, f.geom = some (Geometry.polygon rings) → rings ≠ []) :
    updateMarkersList st = claimedMarkers st := by
  unfold updateMarkersList claimedMarkers
  cases hstep : getAt st.geojsonLayers st.currentIndex with
  | none => rfl
  | some step =>
    refine buildMarkers_eq_claimed _ _ ?_
    intro f hf
    exact hgeom step hstep f (List.mem_filter.mp hf).1

/-- Witness for C9's amended statement on a concrete catalog of plain
polygons with the `uid` toggle enabled. -/
theorem marker_derivation_amended_witness :
    updateMarkersList c9PolyState = claimedMarkers c9PolyState := by
  refine marker_derivation_amended c9PolyState ?_
  intro step hstep f hf rings hr
  have hstepA : some stepA = some step := hstep
  cases Option.some.inj hstepA
  have hfA : f = fA := by
    have : f ∈ [fA] := hf
    simpa using this
  subst hfA
  have hg : some (Geometry.polygon [[((0 : ℚ), (0 : ℚ)), (4, 0), (0, 4)]]) =
      some (Geometry.polygon rings) := hr
  have := Geometry.polygon.inj (Option.some.inj hg)
  rw [← this]
  simp

/-! ## Claim C10: evolution series collection -/

theorem rawSeriesPoints_eq_claimed (u : String) (layers : List TimeStep) :
    rawSeriesPoints u layers = claimedPoints u layers := by
  unfold rawSeriesPoints claimedPoints
  refine congrArg (List.filterMap · layers) (funext fun step => ?_)
  have hpred : (fun f : Feature => (decide (f.props.isSome = true ∧ f.uid = some u))) =
      (fun f : Feature => f.uid == some u) := by
    funext f
    by_cases hu : f.uid = some u
    · have hp : f.props.isSome := by
        unfold Feature.uid Feature.prop at hu
        cases hpp : f.props with
        | none => rw [hpp] at hu; cases hu
        | some l => rfl
      simp [hu, hp]
    · simp [hu]
  show (match step.features.find? (fun f => f.props.isSome ∧ f.uid = some u) with
    | none => none
    | some f =>
      match extractTimestampKey step.fileName with
      | none => none
      | some key => some (mkDataPoint key f)) = _
  rw [show (fun f : Feature => ((f.props.isSome ∧ f.uid = some u : Prop) : Bool)) =
      (fun f : Feature => f.uid == some u) from hpred]
  cases hfind : step.features.find? (fun f => f.uid == some u) with
  | none => cases extractTimestampKey step.fileName <;> rfl
  | some f => cases extractTimestampKey step.fileName <;> rfl

/-- C10: with no cache entry for `uid`, `collectTimeSeriesData(uid)`
returns a chronologically ascending series holding one data point for
every loaded time-step whose features include a feature with that uid
(the first matching feature, irrespective of the current threshold
filter) and whose file name has an extractable timestamp; the result is
cached under `uid`, and a call that hits the cache returns the cached
object unchanged without rescanning the time-steps (whatever they now
are). -/
theorem collectTimeSeriesData_spec :
    (∀ (st : AppState) (u : String), List.lookup u st.dataCache = none →
      (collectTimeSeriesData st u).1.points.Perm (claimedPoints u st.geojsonLayers) ∧
      List.Sorted dpLE (collectTimeSeriesData st u).1.points ∧
      (collectTimeSeriesData st u).2 =
        { st with dataCache := (u, (collectTimeSeriesData st u).1) :: st.dataCache } ∧
      (∀ v : String, (collectTimeSeriesData
        { st with currentThresholdFilter := v } u).1 = (collectTimeSeriesData st u).1)) ∧
    (∀ (st : AppState) (u : String) (d : TimeSeries),
      List.lookup u st.dataCache = some d → ∀ layers : List TimeStep,
        collectTimeSeriesData { st with geojsonLayers := layers } u =
          (d, { st with geojsonLayers := layers })) := by
  constructor
  · intro st u h
    refine ⟨?_, ?_, ?_, ?_⟩
    · simp only [collectTimeSeriesData, h]
      rw [rawSeriesPoints_eq_claimed]
      exact List.perm_insertionSort dpLE _
    · simp only [collectTimeSeriesData, h]
      exact List.sorted_insertionSort dpLE _
    · simp only [collectTimeSeriesData, h]
    · intro v
      simp only [collectTimeSeriesData, h]
  · intro st u d h layers
    simp only [collectTimeSeriesData, h]

/-- Witness for C10: a cache miss over a concrete three-step catalog,
and a cache hit returning the stored series for arbitrary layers. -/
theorem collectTimeSeriesData_spec_witness :
    (List.lookup "A" (initialState [stepA, stepAB, stepB]).dataCache = none ∧
      (collectTimeSeriesData (initialState [stepA, stepAB, stepB]) "A").1.points.Perm
        (claimedPoints "A" (initialState [stepA, stepAB, stepB]).geojsonLayers)) ∧
    (List.lookup "A" ({ initialState [] with
        dataCache := [("A", TimeSeries.mk [])] } : AppState).dataCache =
      some (TimeSeries.mk []) ∧
      collectTimeSeriesData { ({ initialState [] with
          dataCache := [("A", TimeSeries.mk [])] } : AppState) with
          geojsonLayers := [stepA] } "A" =
        (TimeSeries.mk [], { ({ initialState [] with
          dataCache := [("A", TimeSeries.mk [])] } : AppState) with
          geojsonLayers := [stepA] })) :=
  ⟨⟨rfl, (collectTimeSeriesData_spec.1 (initialState [stepA, stepAB, stepB]) "A" rfl).1⟩,
    ⟨rfl, collectTimeSeriesData_spec.2
      { initialState [] with dataCache := [("A", TimeSeries.mk [])] }
      "A" (TimeSeries.mk []) rfl [stepA]⟩⟩

/-! ## Claim C4: reload classification -/

/-- C4 (amended): on process start, a reload classified as manual (no
valid auto-reload flag and no reset flag) leaves selection, threshold,
time-index and display-options at their defaults (no selection, the
default threshold, index = last time-step, all toggles off) and
restores only the saved map viewport; with the explicit reset flag the
viewport too comes up at the defaults and the stored view state is
purged from the store; a reload classified as automatic (flag
timestamp within the 5-minute window) restores threshold, layer
index, display options, trajectory flag and the saved viewport, and
re-selects the persisted uid only when a feature with that uid passes
the restored threshold filter in the restored time-step — when the
entity is absent there, the selection identity is NOT restored: the
uid slot is left null, because `selectPolygonByUid` sets it only on a
successful scan. -/
theorem reload_classification :
    (∀ (store0 : Store) (now : Int) (layers : List TimeStep),
      checkIfAutoReload store0 now = false →
      store0.getItem KEY_MANUAL_RESET ≠ some (JVal.s "true") →
      0 < layers.length →
      (startApp store0 now layers).1.selection = ⟨none, none, none⟩ ∧
      (startApp store0 now layers).1.currentThresholdFilter = DEFAULT_THRESHOLD ∧
      (startApp store0 now layers).1.currentIndex = (layers.length : Int) - 1 ∧
      (startApp store0 now layers).1.displayOptions = DISPLAY_KEYS.map (fun k => (k, false)) ∧
      ∀ la ln z : ℚ, store0.getItem KEY_MAP_VIEW = some (JVal.viewport la ln z) →
        (startApp store0 now layers).1.mapLat = la ∧
        (startApp store0 now layers).1.mapLng = ln ∧
        (startApp store0 now layers).1.mapZoom = z) ∧
    (∀ (store0 : Store) (now : Int) (layers : List TimeStep),
      checkIfAutoReload store0 now = false →
      store0.getItem KEY_MANUAL_RESET = some (JVal.s "true") →
      0 < layers.length →
      (startApp store0 now layers).1.selection = ⟨none, none, none⟩ ∧
      (startApp store0 now layers).1.currentThresholdFilter = DEFAULT_THRESHOLD ∧
      (startApp store0 now layers).1.currentIndex = (layers.length : Int) - 1 ∧
      (startApp store0 now layers).1.displayOptions = DISPLAY_KEYS.map (fun k => (k, false)) ∧
      (startApp store0 now layers).1.mapLat = defaultLat ∧
      (startApp store0 now layers).1.mapLng = defaultLng ∧
      (startApp store0 now layers).1.mapZoom = defaultZoom ∧
      (startApp store0 now layers).2.getItem KEY_MAP_VIEW = none) ∧
    (∀ (store0 : Store) (now : Int) (layers : List TimeStep) (i : Int) (t b : String)
      (m : List (String × Bool)),
      checkIfAutoReload store0 now = true →
      store0.getItem KEY_DISPLAY_OPTIONS = some (JVal.opts m) →
      m.map Prod.fst = DISPLAY_KEYS →
      store0.getItem KEY_THRESHOLD = some (JVal.s t) → t ≠ "" →
      store0.getItem KEY_SHOW_TRAJECTORY = some (JVal.s b) → b ≠ "" →
      store0.getItem KEY_LAYER_INDEX = some (JVal.num i) →
      0 ≤ i → i < (layers.length : Int) →
      (startApp store0 now layers).1.currentThresholdFilter = t ∧
      (startApp store0 now layers).1.currentIndex = i ∧
      (startApp store0 now layers).1.displayOptions = m ∧
      (startApp store0 now layers).1.showTrajectoryChecked = decide (b = "true") ∧
      (∀ la ln z : ℚ, store0.getItem KEY_MAP_VIEW = some (JVal.viewport la ln z) →
        (startApp store0 now layers).1.mapLat = la ∧
        (startApp store0 now layers).1.mapLng = ln ∧
        (startApp store0 now layers).1.mapZoom = z) ∧
      ∀ u : String, store0.getItem KEY_SELECTED_UID = some (JVal.s u) → u ≠ "" →
        ∀ step, getAt layers i = some step →
        ((renderedOf t none step).filter (scanHit u t) ≠ [] →
          (startApp store0 now layers).1.selection.uid = some u) ∧
        ((renderedOf t none step).filter (scanHit u t) = [] →
          (startApp store0 now layers).1.selection.uid = none)) :=
  ⟨fun s n l h1 h2 h3 => startApp_manual_defaults s n l h1 h2 h3,
   fun s n l h1 h2 h3 => startApp_reset_purges s n l h1 h2 h3,
   fun s n l i t b m h1 h2 h3 h4 h5 h6 h7 h8 h9 h10 =>
     startApp_auto_restores s n l i t b m h1 h2 h3 h4 h5 h6 h7 h8 h9 h10⟩

/-- Witness for C4: the reload classes at concrete stores — a saved
viewport only; the reset flag plus a viewport; a fresh auto-reload
stamp with the full persisted UI state; and the two selection
outcomes, at a store saving uid "A" with index 0 (entity present →
re-selected) and with index 1 (entity absent → uid left null), over
the 2-step catalog. -/
theorem reload_classification_witness :
    (checkIfAutoReload storeManualW 0 = false ∧
     storeManualW.getItem KEY_MANUAL_RESET ≠ some (JVal.s "true") ∧
     0 < [stepA].length ∧
     (startApp storeManualW 0 [stepA]).1.currentIndex = ([stepA].length : Int) - 1 ∧
     (startApp storeManualW 0 [stepA]).1.mapLat = 1) ∧
    (checkIfAutoReload storeResetW 0 = false ∧
     storeResetW.getItem KEY_MANUAL_RESET = some (JVal.s "true") ∧
     (startApp storeResetW 0 [stepA]).1.mapLat = defaultLat ∧
     (startApp storeResetW 0 [stepA]).2.getItem KEY_MAP_VIEW = none) ∧
    (checkIfAutoReload storeAutoW 1000 = true ∧
     storeAutoW.getItem KEY_THRESHOLD = some (JVal.s "240.0") ∧
     (startApp storeAutoW 1000 [stepA]).1.currentThresholdFilter = "240.0" ∧
     (startApp storeAutoW 1000 [stepA]).1.currentIndex = 0 ∧
     (startApp storeAutoW 1000 [stepA]).1.displayOptions = optsW ∧
     (startApp storeAutoW 1000 [stepA]).1.mapLat = 1) ∧
    (storeAutoSelW.getItem KEY_SELECTED_UID = some (JVal.s "A") ∧
     (renderedOf "235.0" none stepA).filter (scanHit "A" "235.0") ≠ [] ∧
     (startApp storeAutoSelW 1000 [stepA, stepB]).1.selection.uid = some "A") ∧
    (storeAutoMissW.getItem KEY_SELECTED_UID = some (JVal.s "A") ∧
     (renderedOf "235.0" none stepB).filter (scanHit "A" "235.0") = [] ∧
     (startApp storeAutoMissW 1000 [stepA, stepB]).1.selection.uid = none) := by
  have H1 := reload_classification.1 storeManualW 0 [stepA] (by decide) (by decide) (by decide)
  have H2 := reload_classification.2.1 storeResetW 0 [stepA] (by decide) rfl (by decide)
  have H3 := reload_classification.2.2 storeAutoW 1000 [stepA] 0 "240.0" "false" optsW
    (by decide) rfl rfl rfl (by decide) rfl (by decide) rfl (by decide) (by decide)
  have H4 := reload_classification.2.2 storeAutoSelW 1000 [stepA, stepB] 0 "235.0" "false"
    optsW (by decide) rfl rfl rfl (by decide) rfl (by decide) rfl (by decide) (by decide)
  have H5 := reload_classification.2.2 storeAutoMissW 1000 [stepA, stepB] 1 "235.0" "false"
    optsW (by decide) rfl rfl rfl (by decide) rfl (by decide) rfl (by decide) (by decide)
  exact ⟨⟨by decide, by decide, by decide, H1.2.2.1, (H1.2.2.2.2 1 2 3 rfl).1⟩,
    ⟨by decide, rfl, H2.2.2.2.2.1, H2.2.2.2.2.2.2.2⟩,
    ⟨by decide, rfl, H3.1, H3.2.1, H3.2.2.1, (H3.2.2.2.2.1 1 2 3 rfl).1⟩,
    ⟨rfl, by with_unfolding_all decide,
      (H4.2.2.2.2.2 "A" rfl (by decide) stepA rfl).1 (by with_unfolding_all decide)⟩,
    ⟨rfl, by with_unfolding_all decide,
      (H5.2.2.2.2.2 "A" rfl (by decide) stepB rfl).2 (by with_unfolding_all decide)⟩⟩

/-- C4 counterexample to the original claim: an automatic reload does
not restore the full UI state — the persisted selected uid is dropped
whenever the entity is absent at the restored layer index. With a
fresh auto-reload stamp, saved uid "A" and saved index 1, over a
catalog whose step 1 holds only entity "B", the post-start selection
uid is null rather than "A" (`selectPolygonByUid` sets the uid only on
a successful scan of the restored boundary layer). -/
theorem reload_uid_not_restored :
    checkIfAutoReload storeAutoMissW 1000 = true ∧
    storeAutoMissW.getItem KEY_SELECTED_UID = some (JVal.s "A") ∧
    (startApp storeAutoMissW 1000 [stepA, stepB]).1.selection.uid = none := by
  have H := startApp_auto_restores storeAutoMissW 1000 [stepA, stepB] 1 "235.0" "false" optsW
    (by decide) rfl rfl rfl (by decide) rfl (by decide) rfl (by decide) (by decide)
  exact ⟨by decide, rfl,
    (H.2.2.2.2.2 "A" rfl (by decide) stepB rfl).2 (by with_unfolding_all decide)⟩

/-! ## Claim C5: snapshot / restore round trip -/

/-- C5: `saveState` with the automatic-reload flag at time `now`,
followed by a restart at `now'` within the 5-minute window over the
same catalog, reproduces the `currentIndex`, the threshold filter
value and the display options that were active at snapshot time. (The
snapshot state's threshold is non-empty, its display-options map
carries exactly the DISPLAY_KEYS, and its index is in range — all
invariants of every reachable state.) -/
theorem snapshot_restore_roundtrip (st : AppState) (store0 : Store) (now now2 : Int)
    (hwin : now2 - now < AUTO_RELOAD_TIMEOUT)
    (ht : st.currentThresholdFilter ≠ "")
    (hkeys : st.displayOptions.map Prod.fst = DISPLAY_KEYS)
    (hi0 : 0 ≤ st.currentIndex)
    (hi1 : st.currentIndex < (st.geojsonLayers.length : Int)) :
    (startApp (saveState st store0 now true) now2 st.geojsonLayers).1.currentIndex =
      st.currentIndex ∧
    (startApp (saveState st store0 now true) now2 st.geojsonLayers).1.currentThresholdFilter =
      st.currentThresholdFilter ∧
    (startApp (saveState st store0 now true) now2 st.geojsonLayers).1.displayOptions =
      st.displayOptions := by
  obtain ⟨hA, hO, hT, hI, hTr⟩ := saveState_auto_getItems st store0 now ht
  have hAuto := checkIfAutoReload_of_stamp _ now2 now hA hwin
  have hb : (if st.showTrajectoryChecked then "true" else "false") ≠ "" := by
    cases st.showTrajectoryChecked <;> simp
  obtain ⟨c1, c2, c3, c4, c5, c6⟩ := startApp_auto_restores (saveState st store0 now true) now2
    st.geojsonLayers st.currentIndex st.currentThresholdFilter
    (if st.showTrajectoryChecked then "true" else "false") st.displayOptions
    hAuto hO hkeys hT ht hTr hb hI hi0 hi1
  exact ⟨c2, c1, c3⟩

/-- Witness for C5: the round trip on the concrete 2-element catalog
state (index 0, default threshold and display options), snapshotted at
time 0 and restarted at time 1000 (inside the 5-minute window). -/
theorem snapshot_restore_roundtrip_witness :
    ((1000 : Int) - 0 < AUTO_RELOAD_TIMEOUT ∧
     c7State.currentThresholdFilter ≠ "" ∧
     c7State.displayOptions.map Prod.fst = DISPLAY_KEYS ∧
     (0 : Int) ≤ c7State.currentIndex ∧
     c7State.currentIndex < (c7State.geojsonLayers.length : Int)) ∧
    ((startApp (saveState c7State [] 0 true) 1000 c7State.geojsonLayers).1.currentIndex =
       c7State.currentIndex ∧
     (startApp (saveState c7State [] 0 true) 1000
        c7State.geojsonLayers).1.currentThresholdFilter = c7State.currentThresholdFilter ∧
     (startApp (saveState c7State [] 0 true) 1000 c7State.geojsonLayers).1.displayOptions =
       c7State.displayOptions) :=
  ⟨⟨by decide, by decide, rfl, by decide, by decide⟩,
   snapshot_restore_roundtrip c7State [] 0 1000 (by decide) (by decide) rfl (by decide)
     (by decide)⟩

end PyForTraCC
